import Mathlib

/-!
Formal model of the profile auto-update script (`naukri_auto_update.py`).

The script is a single linear automation job.  We embed it shallowly:

* Python strings become `List Char`; `str.strip` / `str.rstrip` /
  `str.lower` / `in` (substring) are modelled over the ASCII whitespace
  characters.
* Every external effect (selenium calls, SMTP, the file system, the
  random generator) is driven by explicit oracle data carried in
  environment structures, and the observable behaviour of a run is a
  result value together with a list of trace events.
* Exceptions are modelled by explicit `raised` flags / `Except` values;
  Python `try/except` blocks become the corresponding case splits.

Log-file writes are modelled coarsely: only the `logging.error` call of
the missing-credential startup check, the `logging.error` call of the
top-level exception handler, and the `logging.warning` call of
`send_alert` appear as trace events (`Ev.logError` / `Ev.logWarn`);
every logging call in the source is an append to the single log file,
so eliding the remaining ones loses no file-system information beyond
the count of appends.
-/

namespace Naukri

/-- Python strings are modelled as lists of characters. -/
abbrev Str := List Char

/-- ASCII whitespace, the character class stripped by Python
`str.strip()` / `str.rstrip()` (restricted to the ASCII range). -/
def isPySpace (c : Char) : Bool :=
  c == ' ' || c == '\t' || c == '\n' || c == '\r' || c == '\x0b' || c == '\x0c'

/-- Python `s.rstrip()`: drop trailing whitespace. -/
def pyRstrip (l : Str) : Str := (l.reverse.dropWhile isPySpace).reverse

/-- Python `s.strip()`: drop leading and trailing whitespace. -/
def pyStrip (l : Str) : Str := pyRstrip (l.dropWhile isPySpace)

/-- Python `current_text.endswith` applied to a single space. -/
def endsWithSpace (l : Str) : Bool := l.getLast? == some ' '

/-- `update_resume_headline`, lines 296-300: the minor change applied to
the current headline text when no variant was picked --- strip trailing
whitespace if the text ends with a space, otherwise append one space. -/
def toggleHeadlineText (l : Str) : Str :=
  if endsWithSpace l then pyRstrip l else l ++ [' ']

theorem dropWhile_head_not (p : Char → Bool) (l : Str) (a : Char)
    (h : (l.dropWhile p).head? = some a) : p a = false := by
  induction l with
  | nil => simp [List.dropWhile] at h
  | cons x xs ih =>
    rw [List.dropWhile_cons] at h
    by_cases hx : p x = true
    · rw [if_pos hx] at h
      exact ih h
    · rw [if_neg hx] at h
      simp at h
      rw [← h]
      exact Bool.eq_false_iff.mpr hx

theorem pyRstrip_getLast_not_space (l : Str) (c : Char)
    (h : (pyRstrip l).getLast? = some c) : isPySpace c = false := by
  have h' : (l.reverse.dropWhile isPySpace).head? = some c := by
    rw [← List.getLast?_reverse]
    simpa [pyRstrip] using h
  exact dropWhile_head_not _ _ _ h'

theorem endsWithSpace_pyRstrip (l : Str) : endsWithSpace (pyRstrip l) = false := by
  unfold endsWithSpace
  cases h : (pyRstrip l).getLast? with
  | none => rfl
  | some c =>
    have := pyRstrip_getLast_not_space l c h
    have hc : ¬ (c = ' ') := by
      intro he
      rw [he] at this
      simp [isPySpace] at this
    simp [hc]

theorem pyRstrip_length_lt (l : Str) (h : endsWithSpace l = true) :
    (pyRstrip l).length < l.length := by
  unfold endsWithSpace at h
  have hh : l.reverse.head? = some ' ' := by
    rw [List.head?_reverse]
    simpa using h
  cases hr : l.reverse with
  | nil => rw [hr] at hh; simp at hh
  | cons x t =>
    rw [hr] at hh
    simp at hh
    have hx : isPySpace x = true := by
      rw [hh]; decide
    have hlen : l.length = t.length + 1 := by
      have := congrArg List.length hr
      simpa using this
    unfold pyRstrip
    rw [hr, List.dropWhile_cons, if_pos hx, List.length_reverse]
    calc (t.dropWhile isPySpace).length ≤ t.length :=
        ((List.dropWhile_suffix isPySpace).sublist).length_le
      _ < t.length + 1 := Nat.lt_succ_self _
      _ = l.length := hlen.symm

theorem pyRstrip_append_space (l : Str) : pyRstrip (l ++ [' ']) = pyRstrip l := by
  unfold pyRstrip
  rw [List.reverse_append]
  simp [List.dropWhile_cons, isPySpace]

theorem endsWithSpace_append_space (l : Str) : endsWithSpace (l ++ [' ']) = true := by
  simp [endsWithSpace, List.getLast?_concat]

theorem toggle_ne (l : Str) : toggleHeadlineText l ≠ l := by
  intro hEq
  unfold toggleHeadlineText at hEq
  by_cases h : endsWithSpace l = true
  · rw [if_pos (by simpa using h)] at hEq
    have hlt := pyRstrip_length_lt l h
    rw [hEq] at hlt
    exact lt_irrefl _ hlt
  · rw [if_neg (by simpa using h)] at hEq
    have : (l ++ [' ']).length = l.length := by rw [hEq]
    simp at this

theorem toggle_twice (l : Str) :
    toggleHeadlineText (toggleHeadlineText l) = l ↔
      (pyRstrip l = l ∨ l = pyRstrip l ++ [' ']) := by
  by_cases h : endsWithSpace l = true
  · have h1 : toggleHeadlineText l = pyRstrip l := by
      unfold toggleHeadlineText; rw [if_pos (by simpa using h)]
    have h2 : toggleHeadlineText (pyRstrip l) = pyRstrip l ++ [' '] := by
      unfold toggleHeadlineText
      rw [if_neg (by simp [endsWithSpace_pyRstrip l])]
    rw [h1, h2]
    constructor
    · intro he; right; exact he.symm
    · intro hor
      cases hor with
      | inl hr =>
        exfalso
        have : endsWithSpace (pyRstrip l) = true := by rw [hr]; exact h
        rw [endsWithSpace_pyRstrip] at this
        exact Bool.false_ne_true this
      | inr hr => exact hr.symm
  · have h1 : toggleHeadlineText l = l ++ [' '] := by
      unfold toggleHeadlineText; rw [if_neg (by simpa using h)]
    have h2 : toggleHeadlineText (l ++ [' ']) = pyRstrip l := by
      unfold toggleHeadlineText
      rw [if_pos (by simp [endsWithSpace_append_space l]), pyRstrip_append_space]
    rw [h1, h2]
    constructor
    · intro he; left; exact he
    · intro hor
      cases hor with
      | inl hr => exact hr
      | inr hr =>
        exfalso
        have : endsWithSpace l = true := by rw [hr]; exact endsWithSpace_append_space _
        exact h this

/-- C2: with no variant chosen, `update_resume_headline` toggles trailing
whitespace on the current headline text: it strips trailing whitespace when
the text ends with a space and appends one space otherwise, and the result
always differs from the input.  The double-application claim is corrected:
applying the toggle twice restores the original text exactly when the text
either has no trailing whitespace at all or consists of its
whitespace-stripped form followed by a single space. -/
theorem C2_headline_toggle (l : Str) :
    (toggleHeadlineText l = if endsWithSpace l then pyRstrip l else l ++ [' '])
    ∧ toggleHeadlineText l ≠ l
    ∧ (toggleHeadlineText (toggleHeadlineText l) = l ↔
        (pyRstrip l = l ∨ l = pyRstrip l ++ [' '])) :=
  ⟨rfl, toggle_ne l, toggle_twice l⟩

/-- C2 counterexample: a headline with two trailing spaces is not restored
by applying the toggle twice (`a` with two trailing spaces becomes bare `a`
and then `a` with one trailing space). -/
theorem C2_counterexample :
    toggleHeadlineText (toggleHeadlineText ['a', ' ', ' ']) ≠ ['a', ' ', ' '] := by
  decide

/-- C2 witness: the toggle changes the concrete headline `'a'`. -/
theorem C2_witness : toggleHeadlineText ['a'] ≠ ['a'] :=
  (C2_headline_toggle ['a']).2.1

/-- A JSON value appearing in a variant list: either a Python string or a
non-string value (filtered out by the `isinstance(v, str)` check). -/
inductive PyVariant
  | str (s : Str)
  | nonStr
deriving DecidableEq

/-- `random.choice(seq)` modelled by an oracle index `r`: the element at
position `r % len(seq)`. -/
def pyChoice (seq : List Str) (r : Nat) : Str := seq.getD (r % seq.length) []

/-- `_pick_variant` (lines 52-64): normalise the variant list to its
non-blank stripped strings, prefer those that differ from the stripped
current text, and pick one at random (`none` models Python `None`). -/
def pickVariant (currentText : Option Str) (variants : List PyVariant) (r : Nat) :
    Option Str :=
  if variants.isEmpty then none
  else
    let normalized := variants.filterMap fun v =>
      match v with
      | PyVariant.str s => if (pyStrip s).isEmpty then none else some (pyStrip s)
      | PyVariant.nonStr => none
    if normalized.isEmpty then none
    else
      let current := pyStrip (currentText.getD [])
      let candidates := normalized.filter fun v => v != current
      let pool := if candidates.isEmpty then normalized else candidates
      some (pyChoice pool r)

theorem pyChoice_mem (seq : List Str) (r : Nat) (h : seq ≠ []) :
    pyChoice seq r ∈ seq := by
  unfold pyChoice
  have hlen : 0 < seq.length := List.length_pos.mpr h
  have hmod : r % seq.length < seq.length := Nat.mod_lt _ hlen
  rw [List.getD_eq_get _ _ hmod]
  exact List.get_mem _ _ _

/-- The normalised variant list of `_pick_variant`. -/
def normalizedVariants (variants : List PyVariant) : List Str :=
  variants.filterMap fun v =>
    match v with
    | PyVariant.str s => if (pyStrip s).isEmpty then none else some (pyStrip s)
    | PyVariant.nonStr => none

theorem normalizedVariants_eq_nil_iff (variants : List PyVariant) :
    normalizedVariants variants = [] ↔
      ∀ v ∈ variants, ∀ s, v = PyVariant.str s → pyStrip s = [] := by
  unfold normalizedVariants
  rw [List.filterMap_eq_nil]
  constructor
  · intro h v hv s hs
    have h2 := h v hv
    rw [hs] at h2
    by_cases hE : (pyStrip s).isEmpty = true
    · simpa [List.isEmpty_iff] using hE
    · simp [hE] at h2
  · intro h v hv
    cases v with
    | nonStr => rfl
    | str s =>
      have hs := h _ hv s rfl
      simp [hs]

theorem mem_normalizedVariants (variants : List PyVariant) (t : Str) :
    t ∈ normalizedVariants variants ↔
      ∃ s, PyVariant.str s ∈ variants ∧ pyStrip s ≠ [] ∧ t = pyStrip s := by
  unfold normalizedVariants
  rw [List.mem_filterMap]
  constructor
  · rintro ⟨v, hv, hsome⟩
    cases v with
    | nonStr => simp at hsome
    | str s =>
      by_cases hE : (pyStrip s).isEmpty = true
      · simp [hE] at hsome
      · simp only [hE] at hsome
        simp at hsome
        exact ⟨s, hv, by simpa [List.isEmpty_iff] using hE, hsome.symm⟩
  · rintro ⟨s, hv, hne, ht⟩
    refine ⟨PyVariant.str s, hv, ?_⟩
    have hE : (pyStrip s).isEmpty = false := by
      simpa [List.isEmpty_iff] using hne
    simp [hE, ht]

/-- C5: `_pick_variant` returns `None` exactly when the variant list holds
no string that is non-blank after stripping; any returned value is one of
the variants stripped; and whenever some stripped non-blank variant differs
from the stripped current text, the returned value differs from the
stripped current text. -/
theorem C5_pick_variant (currentText : Option Str) (variants : List PyVariant) (r : Nat) :
    (pickVariant currentText variants r = none ↔
      ∀ v ∈ variants, ∀ s, v = PyVariant.str s → pyStrip s = [])
    ∧ (∀ t, pickVariant currentText variants r = some t →
        ∃ s, PyVariant.str s ∈ variants ∧ t = pyStrip s)
    ∧ ((∃ s, PyVariant.str s ∈ variants ∧ pyStrip s ≠ [] ∧
          pyStrip s ≠ pyStrip (currentText.getD [])) →
        ∀ t, pickVariant currentText variants r = some t →
          t ≠ pyStrip (currentText.getD [])) := by
  have hpick : pickVariant currentText variants r =
      (if variants.isEmpty then none
       else if (normalizedVariants variants).isEmpty then none
       else
        let current := pyStrip (currentText.getD [])
        let candidates := (normalizedVariants variants).filter fun v => v != current
        some (pyChoice (if candidates.isEmpty then normalizedVariants variants else candidates) r)) := by
    unfold pickVariant normalizedVariants
    rfl
  refine ⟨?_, ?_, ?_⟩
  · -- none-characterisation
    rw [hpick]
    by_cases hv : variants.isEmpty = true
    · simp only [hv, if_true]
      have hnil : variants = [] := by simpa [List.isEmpty_iff] using hv
      subst hnil
      simp
    · simp only [hv]
      simp only [Bool.false_eq_true, if_false]
      by_cases hn : (normalizedVariants variants).isEmpty = true
      · simp only [hn, if_true]
        rw [← normalizedVariants_eq_nil_iff]
        simp [List.isEmpty_iff] at hn
        simp [hn]
      · simp only [hn]
        simp only [Bool.false_eq_true, if_false]
        constructor
        · intro h; exact absurd h (by simp)
        · intro h
          exfalso
          have : normalizedVariants variants = [] :=
            (normalizedVariants_eq_nil_iff variants).mpr h
          rw [this] at hn
          simp at hn
  · -- membership of the result
    intro t ht
    rw [hpick] at ht
    by_cases hv : variants.isEmpty = true
    · simp [hv] at ht
    · simp only [hv, Bool.false_eq_true, if_false] at ht
      by_cases hn : (normalizedVariants variants).isEmpty = true
      · simp [hn] at ht
      · simp only [hn, Bool.false_eq_true, if_false] at ht
        have hnnil : normalizedVariants variants ≠ [] := by
          simpa [List.isEmpty_iff] using hn
        have hmem : t ∈ normalizedVariants variants := by
          have hts : t = pyChoice
              (if ((normalizedVariants variants).filter fun v =>
                    v != pyStrip (currentText.getD [])).isEmpty
               then normalizedVariants variants
               else (normalizedVariants variants).filter fun v =>
                    v != pyStrip (currentText.getD [])) r := by
            have := ht
            simp only [Option.some.injEq] at this
            exact this.symm
          by_cases hc : ((normalizedVariants variants).filter fun v =>
              v != pyStrip (currentText.getD [])).isEmpty = true
          · rw [hts]
            simp only [hc, if_true]
            exact pyChoice_mem _ r hnnil
          · rw [hts]
            simp only [hc, Bool.false_eq_true, if_false]
            have hfnil : ((normalizedVariants variants).filter fun v =>
                v != pyStrip (currentText.getD [])) ≠ [] := by
              simpa [List.isEmpty_iff] using hc
            exact List.mem_of_mem_filter (pyChoice_mem _ r hfnil)
        obtain ⟨s, hsv, _, hts⟩ := (mem_normalizedVariants variants t).mp hmem
        exact ⟨s, hsv, hts⟩
  · -- difference from the stripped current text
    rintro ⟨s, hsv, hsne, hsdiff⟩ t ht
    rw [hpick] at ht
    by_cases hv : variants.isEmpty = true
    · simp [hv] at ht
    · simp only [hv, Bool.false_eq_true, if_false] at ht
      by_cases hn : (normalizedVariants variants).isEmpty = true
      · simp [hn] at ht
      · simp only [hn, Bool.false_eq_true, if_false] at ht
        have hcand : pyStrip s ∈ (normalizedVariants variants).filter fun v =>
            v != pyStrip (currentText.getD []) := by
          rw [List.mem_filter]
          refine ⟨(mem_normalizedVariants variants _).mpr ⟨s, hsv, hsne, rfl⟩, ?_⟩
          simpa using hsdiff
        have hcnil : ((normalizedVariants variants).filter fun v =>
            v != pyStrip (currentText.getD [])) ≠ [] :=
          List.ne_nil_of_mem hcand
        have hcE : ((normalizedVariants variants).filter fun v =>
            v != pyStrip (currentText.getD [])).isEmpty = false := by
          simpa [List.isEmpty_iff] using hcnil
        simp only [hcE, Bool.false_eq_true, if_false, Option.some.injEq] at ht
        have hmem := pyChoice_mem _ r hcnil
        rw [ht] at hmem
        have := (List.mem_filter.mp hmem).2
        simpa using this

/-- C5 witness: with current text `'a'` and variants `[' b ']`, the picked
variant `'b'` differs from the stripped current text. -/
theorem C5_witness : (['b'] : Str) ≠ pyStrip ((some ['a'] : Option Str).getD []) :=
  (C5_pick_variant (some ['a']) [PyVariant.str [' ', 'b', ' ']] 0).2.2
    ⟨[' ', 'b', ' '], by decide, by decide, by decide⟩ ['b'] (by decide)

/-! ### `_find_clickable` / `_find_visible` (lines 75-108)

Selectors are identified by numbers; the DOM is an oracle mapping a poll
round and a selector to what `driver.find_elements` yields there: either a
raised exception (identified by a number) or a list of elements. -/

/-- A DOM element as observed by the script. -/
structure DomElem where
  elemId : Nat
  displayed : Bool
  enabled : Bool
deriving DecidableEq

/-- Outcome of `driver.find_elements(by, selector)` for one selector. -/
inductive SelResult
  | raised (excId : Nat)
  | located (els : List DomElem)
deriving DecidableEq

/-- Errors raised by `_find_clickable` / `_find_visible`. -/
inductive FindErr
  | valueError
  | timeoutErr
  | raisedExc (excId : Nat)
  | raiseNone
deriving DecidableEq

/-- `element.is_displayed() and element.is_enabled()`. -/
def isClickable (e : DomElem) : Bool := e.displayed && e.enabled

/-- One pass of the inner `for by, selector in selectors` loop of
`_find_clickable`: returns the element found (if any) together with the
updated `last_exc`. -/
def scanSelectors (resp : Nat → SelResult) :
    List Nat → Option Nat → Option DomElem × Option Nat
  | [], last => (none, last)
  | s :: rest, last =>
    match resp s with
    | SelResult.raised e => scanSelectors resp rest (some e)
    | SelResult.located els =>
      match els.find? isClickable with
      | some el => (some el, last)
      | none => scanSelectors resp rest last

/-- The `while time.time() < end_time` loop of `_find_clickable`, with the
timeout modelled as a number of remaining poll rounds. -/
def findClickableAux (sels : List Nat) (page : Nat → Nat → SelResult) :
    Nat → Nat → Option Nat → Except FindErr DomElem
  | 0, _, last =>
    match last with
    | some e => Except.error (FindErr.raisedExc e)
    | none => Except.error FindErr.timeoutErr
  | n + 1, round, last =>
    match scanSelectors (page round) sels last with
    | (some el, _) => Except.ok el
    | (none, last') => findClickableAux sels page n (round + 1) last'

/-- `_find_clickable(selectors, timeout)`: `rounds` is the number of poll
iterations the timeout allows; `page k s` is what selector `s` yields in
round `k`. -/
def findClickable (sels : List Nat) (rounds : Nat) (page : Nat → Nat → SelResult) :
    Except FindErr DomElem :=
  if sels.isEmpty then Except.error FindErr.valueError
  else findClickableAux sels page rounds 0 none

/-- Outcome of one `WebDriverWait(...).until(visibility_of(...))` call in
`_find_visible`. -/
inductive VisResult
  | raised (excId : Nat)
  | located (el : DomElem)
deriving DecidableEq

/-- The selector loop of `_find_visible`; `raiseNone` models `raise None`
on the (unreachable from a non-empty list) exit with no stored error. -/
def findVisibleAux (resp : Nat → VisResult) :
    List Nat → Option Nat → Except FindErr DomElem
  | [], some e => Except.error (FindErr.raisedExc e)
  | [], none => Except.error FindErr.raiseNone
  | s :: rest, last =>
    match resp s with
    | VisResult.located el => Except.ok el
    | VisResult.raised e => findVisibleAux resp rest (some e)

/-- `_find_visible(selectors, timeout)`. -/
def findVisible (sels : List Nat) (resp : Nat → VisResult) :
    Except FindErr DomElem :=
  if sels.isEmpty then Except.error FindErr.valueError
  else findVisibleAux resp sels none

/-! Spec-side readings for C7: the located clickable elements of one poll
round, in selector-priority order, and the exceptions of one round. -/

/-- All elements located in one round that are displayed and enabled, in
selector-priority order (selectors that raise contribute nothing). -/
def locatedClickables (resp : Nat → SelResult) (sels : List Nat) : List DomElem :=
  (sels.map fun s =>
    match resp s with
    | SelResult.located els => els.filter isClickable
    | SelResult.raised _ => []).join

/-- The first displayed-and-enabled element a round locates, if any. -/
def roundFirst (resp : Nat → SelResult) (sels : List Nat) : Option DomElem :=
  (locatedClickables resp sels).head?

/-- The exceptions raised while scanning one round, in selector order. -/
def roundErrs (resp : Nat → SelResult) (sels : List Nat) : List Nat :=
  sels.filterMap fun s =>
    match resp s with
    | SelResult.raised e => some e
    | SelResult.located _ => none

/-- The exceptions raised in rounds `round, round+1, ..., round+n-1`. -/
def allErrsFrom (sels : List Nat) (page : Nat → Nat → SelResult) :
    Nat → Nat → List Nat
  | _, 0 => []
  | round, n + 1 =>
    roundErrs (page round) sels ++ allErrsFrom sels page (round + 1) n

/-- The last element of an error list, i.e. the final value of `last_exc`. -/
def lastError (es : List Nat) : Option Nat :=
  es.foldl (fun _ e => some e) none

theorem lastError_concat (es : List Nat) (e : Nat) : lastError (es ++ [e]) = some e := by
  unfold lastError
  rw [List.foldl_append]
  rfl

theorem find?_eq_head_filter (p : DomElem → Bool) (l : List DomElem) :
    l.find? p = (l.filter p).head? := by
  induction l with
  | nil => rfl
  | cons x xs ih =>
    by_cases hx : p x = true
    · rw [List.find?_cons_of_pos _ hx, List.filter_cons_of_pos hx]
      rfl
    · rw [List.find?_cons_of_neg _ (by simpa using hx),
        List.filter_cons_of_neg (by simpa using hx)]
      exact ih

theorem scanSelectors_fst (resp : Nat → SelResult) (sels : List Nat) (last : Option Nat) :
    (scanSelectors resp sels last).1 = roundFirst resp sels := by
  induction sels generalizing last with
  | nil => rfl
  | cons s rest ih =>
    unfold scanSelectors roundFirst locatedClickables
    cases hr : resp s with
    | raised e =>
      simp only [hr, List.map_cons, List.join]
      have := ih (some e)
      unfold roundFirst locatedClickables at this
      simpa using this
    | located els =>
      simp only [hr, List.map_cons, List.join]
      cases hf : els.find? isClickable with
      | some el =>
        have : (els.filter isClickable).head? = some el := by
          rw [← find?_eq_head_filter]; exact hf
        cases hfl : els.filter isClickable with
        | nil => rw [hfl] at this; simp at this
        | cons y ys =>
          rw [hfl] at this
          simp at this
          simp [this]
      | none =>
        have : (els.filter isClickable) = [] := by
          have h1 : (els.filter isClickable).head? = none := by
            rw [← find?_eq_head_filter]; exact hf
          cases hfl : els.filter isClickable with
          | nil => rfl
          | cons y ys => rw [hfl] at h1; simp at h1
        rw [this]
        have := ih last
        unfold roundFirst locatedClickables at this
        simpa using this

theorem scanSelectors_snd (resp : Nat → SelResult) (sels : List Nat) (last : Option Nat)
    (h : (scanSelectors resp sels last).1 = none) :
    (scanSelectors resp sels last).2 =
      (roundErrs resp sels).foldl (fun _ e => some e) last := by
  induction sels generalizing last with
  | nil => rfl
  | cons s rest ih =>
    cases hr : resp s with
    | raised e =>
      have h' : (scanSelectors resp rest (some e)).1 = none := by
        simpa [scanSelectors, hr] using h
      have hrec := ih (some e) h'
      simp [scanSelectors, hr, roundErrs, List.filterMap_cons, hrec]
    | located els =>
      cases hf : els.find? isClickable with
      | some el =>
        exfalso
        simp [scanSelectors, hr, hf] at h
      | none =>
        have h' : (scanSelectors resp rest last).1 = none := by
          simpa [scanSelectors, hr, hf] using h
        have hrec := ih last h'
        simp [scanSelectors, hr, hf, roundErrs, List.filterMap_cons, hrec]

theorem roundFirst_isClickable (resp : Nat → SelResult) (sels : List Nat) (el : DomElem)
    (h : roundFirst resp sels = some el) : isClickable el = true := by
  unfold roundFirst at h
  have hmem : el ∈ locatedClickables resp sels := List.mem_of_mem_head? h
  unfold locatedClickables at hmem
  rw [List.mem_join] at hmem
  obtain ⟨l, hl, hel⟩ := hmem
  rw [List.mem_map] at hl
  obtain ⟨s, _, hls⟩ := hl
  cases hr : resp s with
  | raised e => rw [hr] at hls; rw [← hls] at hel; simp at hel
  | located els =>
    rw [hr] at hls
    rw [← hls] at hel
    exact (List.mem_filter.mp hel).2

theorem findClickableAux_ok (sels : List Nat) (page : Nat → Nat → SelResult)
    (n round : Nat) (last : Option Nat) (el : DomElem)
    (h : findClickableAux sels page n round last = Except.ok el) :
    isClickable el = true ∧
      ∃ k, round ≤ k ∧ k < round + n ∧ roundFirst (page k) sels = some el ∧
        ∀ j, round ≤ j → j < k → roundFirst (page j) sels = none := by
  induction n generalizing round last with
  | zero =>
    unfold findClickableAux at h
    cases last <;> simp at h
  | succ m ih =>
    unfold findClickableAux at h
    cases hscan : scanSelectors (page round) sels last with
    | mk fst snd =>
      rw [hscan] at h
      cases fst with
      | some e =>
        simp at h
        have hfirst : roundFirst (page round) sels = some e := by
          rw [← scanSelectors_fst (page round) sels last, hscan]
        subst h
        refine ⟨roundFirst_isClickable _ _ _ hfirst, round, le_refl _, ?_, hfirst, ?_⟩
        · omega
        · intro j hj1 hj2; omega
      | none =>
        simp at h
        obtain ⟨hck, k, hk1, hk2, hk3, hk4⟩ := ih (round + 1) snd h
        refine ⟨hck, k, by omega, by omega, hk3, ?_⟩
        intro j hj1 hj2
        by_cases hjr : j = round
        · subst hjr
          rw [← scanSelectors_fst (page j) sels last, hscan]
        · exact hk4 j (by omega) hj2

theorem allErrsFrom_succ (sels : List Nat) (page : Nat → Nat → SelResult)
    (round n : Nat) :
    allErrsFrom sels page round (n + 1) =
      roundErrs (page round) sels ++ allErrsFrom sels page (round + 1) n := rfl

theorem findClickableAux_timeout (sels : List Nat) (page : Nat → Nat → SelResult)
    (n round : Nat) (last : Option Nat)
    (h : ∀ k, round ≤ k → k < round + n → roundFirst (page k) sels = none) :
    findClickableAux sels page n round last =
      Except.error
        (match (allErrsFrom sels page round n).foldl (fun _ e => some e) last with
         | some e => FindErr.raisedExc e
         | none => FindErr.timeoutErr) := by
  induction n generalizing round last with
  | zero =>
    unfold findClickableAux allErrsFrom
    cases last <;> rfl
  | succ m ih =>
    have hfst : (scanSelectors (page round) sels last).1 = none := by
      rw [scanSelectors_fst]
      exact h round (le_refl _) (by omega)
    have hsnd := scanSelectors_snd (page round) sels last hfst
    have hstep : findClickableAux sels page (m + 1) round last =
        findClickableAux sels page m (round + 1) ((scanSelectors (page round) sels last).2) := by
      simp only [findClickableAux]
      cases hscan : scanSelectors (page round) sels last with
      | mk fst snd =>
        cases fst with
        | some el => exfalso; rw [hscan] at hfst; simp at hfst
        | none => rfl
    rw [hstep, ih (round + 1) _ (by intro k hk1 hk2; exact h k (by omega) (by omega)),
      hsnd, allErrsFrom_succ, List.foldl_append]

/-- C7: `_find_clickable` scans the selector list in priority order once per
poll round and returns the first located displayed-and-enabled element of
the earliest successful round; if no round locates one it raises the last
selector exception when one was stored and a timeout error otherwise; and
both `_find_clickable` and `_find_visible` raise `ValueError` on an empty
selector list. -/
theorem C7_find_clickable :
    (∀ rounds page, findClickable [] rounds page = Except.error FindErr.valueError)
    ∧ (∀ resp, findVisible [] resp = Except.error FindErr.valueError)
    ∧ (∀ sels rounds page el, findClickable sels rounds page = Except.ok el →
        isClickable el = true ∧
          ∃ k, k < rounds ∧ roundFirst (page k) sels = some el ∧
            ∀ j, j < k → roundFirst (page j) sels = none)
    ∧ (∀ sels rounds page, sels ≠ [] →
        (∀ k, k < rounds → roundFirst (page k) sels = none) →
        findClickable sels rounds page =
          Except.error
            (match lastError (allErrsFrom sels page 0 rounds) with
             | some e => FindErr.raisedExc e
             | none => FindErr.timeoutErr)) := by
  refine ⟨fun rounds page => rfl, fun resp => rfl, ?_, ?_⟩
  · intro sels rounds page el h
    unfold findClickable at h
    by_cases hE : sels.isEmpty = true
    · rw [if_pos hE] at h; simp at h
    · rw [if_neg (by simpa using hE)] at h
      obtain ⟨hck, k, _, hk2, hk3, hk4⟩ := findClickableAux_ok sels page rounds 0 none el h
      exact ⟨hck, k, by omega, hk3, fun j hj => hk4 j (Nat.zero_le _) hj⟩
  · intro sels rounds page hnil h
    unfold findClickable
    rw [if_neg (by simpa [List.isEmpty_iff] using hnil)]
    rw [findClickableAux_timeout sels page rounds 0 none
      (fun k _ hk => h k (by omega))]
    rfl

/-- C7 witness: a concrete page where selector 0 raises in round 0 and the
single element is located, displayed and enabled in round 1. -/
theorem C7_witness :
    isClickable (DomElem.mk 7 true true) = true ∧
      ∃ k, k < 2 ∧
        roundFirst
          (fun s =>
            if s = 0 then SelResult.located [DomElem.mk 7 true true]
            else SelResult.raised 3) [0] = some (DomElem.mk 7 true true) ∧
        ∀ j, j < k →
          roundFirst
            (fun s =>
              if s = 0 then SelResult.located [DomElem.mk 7 true true]
              else SelResult.raised 3) [0] = none := by
  have h := C7_find_clickable.2.2.1 [0] 2
    (fun _ s =>
      if s = 0 then SelResult.located [DomElem.mk 7 true true]
      else SelResult.raised 3)
    (DomElem.mk 7 true true) rfl
  exact ⟨h.1, h.2⟩

/-! ### Trace events

The observable effects of a run.  File-system writes performed by the
script are: log-file appends (`Ev.logError` / `Ev.logWarn`), the debug
artifacts of `_dump_debug` (the debug directory plus a screenshot and an
HTML dump, collapsed into one `Ev.dumpDebug` event), and the
`os.makedirs(profile_dir)` call of `_setup_chrome`
(`Ev.mkdirProfileDir`). -/

/-- The three editable profile sections. -/
inductive EditField
  | headline
  | summary
  | keySkills
deriving DecidableEq

/-- Status argument of `send_alert`. -/
inductive AlertStatus
  | success
  | failed
  | error
deriving DecidableEq

/-- Trace events of a run. -/
inductive Ev
  | logError
  | logWarn
  | sleepDelay (secs : Nat)
  | mkdirProfileDir (dir : Str)
  | chromeAttempt
  | firefoxAttempt
  | navigateProfile
  | loginAttempt
  | taskCall (f : EditField)
  | setFieldText (f : EditField)
  | clickSave (f : EditField)
  | dumpDebug (label : Str)
  | alertCall (st : AlertStatus)
  | smtpSend (st : AlertStatus)
  | closeBrowser
deriving DecidableEq

def headlineFailLbl : Str := "resume_headline_failed".toList
def summaryFailLbl : Str := "profile_summary_failed".toList
def keySkillsFailLbl : Str := "key_skills_failed".toList
def loginRequiredLbl : Str := "login_required".toList
def captchaLbl : Str := "captcha".toList

/-! ### The three edit attempts (lines 272-393) -/

/-- Where an selenium calls of an edit attempt first raise, if anywhere;
`none` means every call succeeds. -/
inductive EditStage
  | findEditBtn
  | findTextArea
  | findSaveBtn
deriving DecidableEq

/-- Oracle data for one `update_resume_headline` call. -/
structure HeadEnv where
  failAt : Option EditStage
  currentText : Option Str
  randIdx : Nat
deriving DecidableEq

/-- The new headline text of `update_resume_headline` (lines 292-300):
the picked variant if any, otherwise the trailing-whitespace toggle of the
current text; `none` models the `AttributeError` raised by
`current_text.endswith` when `get_attribute` returned `None`. -/
def headlineNewText (currentText : Option Str) (variants : List PyVariant) (r : Nat) :
    Option Str :=
  match pickVariant currentText variants r with
  | some t => some t
  | none =>
    match currentText with
    | some s => some (toggleHeadlineText s)
    | none => none

/-- `update_resume_headline(variants)` as result plus trace; every
exception is caught in the method, which then dumps debug artifacts and
returns `False`. -/
def runHeadline (variants : List PyVariant) (e : HeadEnv) : Bool × List Ev :=
  match e.failAt with
  | some EditStage.findEditBtn =>
    (false, [Ev.taskCall EditField.headline, Ev.dumpDebug headlineFailLbl])
  | some EditStage.findTextArea =>
    (false, [Ev.taskCall EditField.headline, Ev.dumpDebug headlineFailLbl])
  | some EditStage.findSaveBtn =>
    match headlineNewText e.currentText variants e.randIdx with
    | none => (false, [Ev.taskCall EditField.headline, Ev.dumpDebug headlineFailLbl])
    | some _ =>
      (false, [Ev.taskCall EditField.headline, Ev.setFieldText EditField.headline,
        Ev.dumpDebug headlineFailLbl])
  | none =>
    match headlineNewText e.currentText variants e.randIdx with
    | none => (false, [Ev.taskCall EditField.headline, Ev.dumpDebug headlineFailLbl])
    | some _ =>
      (true, [Ev.taskCall EditField.headline, Ev.setFieldText EditField.headline,
        Ev.clickSave EditField.headline])

/-- Oracle data for one `update_profile_summary` call. -/
structure SumEnv where
  failAt : Option EditStage
  currentText : Option Str
  randIdx : Nat
deriving DecidableEq

/-- `update_profile_summary(variants)`: returns `False` immediately when
no variants are configured, skips (without debug dump) when
`_pick_variant` yields nothing, and otherwise mirrors the headline edit. -/
def runSummary (variants : List PyVariant) (e : SumEnv) : Bool × List Ev :=
  if variants.isEmpty then (false, [Ev.taskCall EditField.summary])
  else
    match e.failAt with
    | some EditStage.findEditBtn =>
      (false, [Ev.taskCall EditField.summary, Ev.dumpDebug summaryFailLbl])
    | some EditStage.findTextArea =>
      (false, [Ev.taskCall EditField.summary, Ev.dumpDebug summaryFailLbl])
    | some EditStage.findSaveBtn =>
      match pickVariant e.currentText variants e.randIdx with
      | none => (false, [Ev.taskCall EditField.summary])
      | some _ =>
        (false, [Ev.taskCall EditField.summary, Ev.setFieldText EditField.summary,
          Ev.dumpDebug summaryFailLbl])
    | none =>
      match pickVariant e.currentText variants e.randIdx with
      | none => (false, [Ev.taskCall EditField.summary])
      | some _ =>
        (true, [Ev.taskCall EditField.summary, Ev.setFieldText EditField.summary,
          Ev.clickSave EditField.summary])

/-- Failure points of `update_key_skills` (it only clicks, never types). -/
inductive KeyStage
  | findEditBtn
  | findSaveBtn
deriving DecidableEq

/-- Oracle data for one `update_key_skills` call. -/
structure KeyEnv where
  failAt : Option KeyStage
deriving DecidableEq

/-- `update_key_skills()`: clicks edit then save without changing text. -/
def runKeySkills (e : KeyEnv) : Bool × List Ev :=
  match e.failAt with
  | some _ => (false, [Ev.taskCall EditField.keySkills, Ev.dumpDebug keySkillsFailLbl])
  | none => (true, [Ev.taskCall EditField.keySkills, Ev.clickSave EditField.keySkills])

/-! ### `_is_login_page` (lines 123-129), captcha check and `update_profile`
(lines 233-270) -/

/-- The browser state `update_profile` observes after navigation. -/
structure PageState where
  urlRaises : Bool
  currentUrl : Option Str
  usernameFieldPresent : Bool
  pageSource : Option Str
deriving DecidableEq

/-- Python `pat in s` (substring test): does `s` start with `pat`? -/
def beginsWithChars : Str → Str → Bool
  | [], _ => true
  | _ :: _, [] => false
  | p :: ps, c :: cs => p == c && beginsWithChars ps cs

/-- Python `pat in s` (substring test). -/
def hasSubChars (pat : Str) : Str → Bool
  | [] => pat.isEmpty
  | c :: cs => beginsWithChars pat (c :: cs) || hasSubChars pat cs

/-- ASCII `str.lower()` on one character. -/
def asciiLower (c : Char) : Char :=
  if 65 ≤ c.toNat ∧ c.toNat ≤ 90 then Char.ofNat (c.toNat + 32) else c

/-- ASCII `str.lower()`. -/
def lowerStr (s : Str) : Str := s.map asciiLower

def nloginStr : Str := "nlogin".toList
def captchaStr : Str := "captcha".toList

/-- `_is_login_page`: `True` when the current URL contains `nlogin` or a
`usernameField` element exists; any exception yields `False`. -/
def isLoginPage (p : PageState) : Bool :=
  if p.urlRaises then false
  else if hasSubChars nloginStr (p.currentUrl.getD []) then true
  else p.usernameFieldPresent

/-- The captcha guard of `update_profile`:
`"captcha" in self.driver.page_source.lower()`. -/
def captchaDetected (p : PageState) : Bool :=
  hasSubChars captchaStr (lowerStr (p.pageSource.getD []))

/-- Oracle data for one `update_profile` call.  `navRaises` models an
exception raised by `driver.get` / the page inspection before the guards
complete (caught by the handler of the method); `shuffleSwap` is the outcome of
`random.shuffle` on the two-element task list; `gap1`/`gap2` drive the
`random.randint(2, 5)` delays. -/
structure ProfEnv where
  navRaises : Bool
  page : PageState
  shuffleSwap : Bool
  head : HeadEnv
  summ : SumEnv
  keys : KeyEnv
  gap1 : Nat
  gap2 : Nat
deriving DecidableEq

/-- `random.randint(2, 5)` driven by an oracle. -/
def profileGap (r : Nat) : Nat := 2 + r % 4

/-- `update_profile(headline_variants, summary_variants)` as result plus
trace. -/
def updateProfile (hv sv : List PyVariant) (p : ProfEnv) : Bool × List Ev :=
  if p.navRaises then (false, [])
  else if isLoginPage p.page then
    (false, [Ev.navigateProfile, Ev.dumpDebug loginRequiredLbl])
  else if captchaDetected p.page then
    (false, [Ev.navigateProfile, Ev.dumpDebug captchaLbl])
  else
    let t1 := if p.shuffleSwap then runSummary sv p.summ else runHeadline hv p.head
    let t2 := if p.shuffleSwap then runHeadline hv p.head else runSummary sv p.summ
    if t1.1 then (true, Ev.navigateProfile :: t1.2)
    else if t2.1 then
      (true, Ev.navigateProfile :: (t1.2 ++ [Ev.sleepDelay (profileGap p.gap1)] ++ t2.2))
    else
      let t3 := runKeySkills p.keys
      (t3.1, Ev.navigateProfile ::
        (t1.2 ++ [Ev.sleepDelay (profileGap p.gap1)] ++ t2.2 ++
          [Ev.sleepDelay (profileGap p.gap2)] ++ t3.2))

/-- The fields whose edit methods a trace invoked, in call order. -/
def taskCallsOf (tr : List Ev) : List EditField :=
  tr.filterMap fun e =>
    match e with
    | Ev.taskCall f => some f
    | _ => none

/-- Reading of the behaviour claim C3 states, written from the claim: the two text
edits in shuffled order, cut at the first success, with the key-skills
re-save appended only when both text edits fail. -/
def claimedAttempts (hv sv : List PyVariant) (p : ProfEnv) : List EditField :=
  let f1 := if p.shuffleSwap then EditField.summary else EditField.headline
  let f2 := if p.shuffleSwap then EditField.headline else EditField.summary
  let r1 := if p.shuffleSwap then (runSummary sv p.summ).1 else (runHeadline hv p.head).1
  let r2 := if p.shuffleSwap then (runHeadline hv p.head).1 else (runSummary sv p.summ).1
  if r1 then [f1]
  else if r2 then [f1, f2]
  else [f1, f2, EditField.keySkills]

theorem taskCallsOf_append (a b : List Ev) :
    taskCallsOf (a ++ b) = taskCallsOf a ++ taskCallsOf b :=
  List.filterMap_append _ _ _

theorem taskCallsOf_runHeadline (hv : List PyVariant) (e : HeadEnv) :
    taskCallsOf (runHeadline hv e).2 = [EditField.headline] := by
  unfold runHeadline
  cases e.failAt with
  | none => cases headlineNewText e.currentText hv e.randIdx <;> rfl
  | some st =>
    cases st with
    | findEditBtn => rfl
    | findTextArea => rfl
    | findSaveBtn => cases headlineNewText e.currentText hv e.randIdx <;> rfl

theorem taskCallsOf_runSummary (sv : List PyVariant) (e : SumEnv) :
    taskCallsOf (runSummary sv e).2 = [EditField.summary] := by
  unfold runSummary
  by_cases hE : sv.isEmpty = true
  · simp only [hE, if_true]; rfl
  · simp only [hE, Bool.false_eq_true, if_false]
    cases e.failAt with
    | none => cases pickVariant e.currentText sv e.randIdx <;> rfl
    | some st =>
      cases st with
      | findEditBtn => rfl
      | findTextArea => rfl
      | findSaveBtn => cases pickVariant e.currentText sv e.randIdx <;> rfl

theorem taskCallsOf_runKeySkills (e : KeyEnv) :
    taskCallsOf (runKeySkills e).2 = [EditField.keySkills] := by
  unfold runKeySkills
  cases e.failAt <;> rfl

theorem mem_taskCallsOf (tr : List Ev) (f : EditField) :
    f ∈ taskCallsOf tr ↔ Ev.taskCall f ∈ tr := by
  unfold taskCallsOf
  rw [List.mem_filterMap]
  constructor
  · rintro ⟨e, he, hsome⟩
    cases e <;> simp at hsome
    subst hsome
    exact he
  · intro h
    exact ⟨Ev.taskCall f, h, rfl⟩

theorem taskCallsOf_nav_cons (l : List Ev) :
    taskCallsOf (Ev.navigateProfile :: l) = taskCallsOf l := rfl

theorem taskCallsOf_sleep_cons (n : Nat) (l : List Ev) :
    taskCallsOf (Ev.sleepDelay n :: l) = taskCallsOf l := rfl

theorem taskCall_keySkills_notMem_runHeadline (hv : List PyVariant) (e : HeadEnv) :
    Ev.taskCall EditField.keySkills ∉ (runHeadline hv e).2 := by
  rw [← mem_taskCallsOf, taskCallsOf_runHeadline]
  decide

theorem taskCall_keySkills_notMem_runSummary (sv : List PyVariant) (e : SumEnv) :
    Ev.taskCall EditField.keySkills ∉ (runSummary sv e).2 := by
  rw [← mem_taskCallsOf, taskCallsOf_runSummary]
  decide

theorem taskCall_keySkills_mem_runKeySkills (e : KeyEnv) :
    Ev.taskCall EditField.keySkills ∈ (runKeySkills e).2 := by
  rw [← mem_taskCallsOf, taskCallsOf_runKeySkills]
  decide

/-- C3: when navigation succeeds and the login/captcha guards pass,
`update_profile` calls the headline and summary edits in the shuffled
order, stops at the first success, calls the key-skills re-save exactly
when both text edits fail, succeeds exactly when some attempted edit
succeeds, and hence returns `False` only when every attempted edit
failed. -/
theorem C3_update_profile_order (hv sv : List PyVariant) (p : ProfEnv)
    (hnav : p.navRaises = false) (hlogin : isLoginPage p.page = false)
    (hcap : captchaDetected p.page = false) :
    ((updateProfile hv sv p).1 =
      ((runHeadline hv p.head).1 || (runSummary sv p.summ).1 || (runKeySkills p.keys).1))
    ∧ taskCallsOf (updateProfile hv sv p).2 = claimedAttempts hv sv p
    ∧ (Ev.taskCall EditField.keySkills ∈ (updateProfile hv sv p).2 ↔
        ((runHeadline hv p.head).1 = false ∧ (runSummary sv p.summ).1 = false))
    ∧ ((updateProfile hv sv p).1 = false ↔
        ((runHeadline hv p.head).1 = false ∧ (runSummary sv p.summ).1 = false ∧
          (runKeySkills p.keys).1 = false)) := by
  cases hsw : p.shuffleSwap <;>
    cases h1 : (runHeadline hv p.head).1 <;>
    cases h2 : (runSummary sv p.summ).1 <;>
    cases h3 : (runKeySkills p.keys).1 <;>
    refine ⟨?_, ?_, ?_, ?_⟩ <;>
    simp [updateProfile, claimedAttempts, hnav, hlogin, hcap, hsw, h1, h2, h3,
      taskCallsOf_append, taskCallsOf_nav_cons, taskCallsOf_sleep_cons,
      taskCallsOf_runHeadline, taskCallsOf_runSummary, taskCallsOf_runKeySkills,
      taskCall_keySkills_notMem_runHeadline, taskCall_keySkills_notMem_runSummary,
      taskCall_keySkills_mem_runKeySkills]

/-- C3 witness: an all-succeeding environment in which the profile update
reports success. -/
theorem C3_witness :
    (updateProfile [] []
      (ProfEnv.mk false (PageState.mk false (some ['x']) false (some [])) false
        (HeadEnv.mk none (some ['a']) 0) (SumEnv.mk none (some ['a']) 0)
        (KeyEnv.mk none) 0 0)).1 =
      ((runHeadline [] (HeadEnv.mk none (some ['a']) 0)).1 ||
        (runSummary [] (SumEnv.mk none (some ['a']) 0)).1 ||
        (runKeySkills (KeyEnv.mk none)).1) :=
  (C3_update_profile_order [] []
    (ProfEnv.mk false (PageState.mk false (some ['x']) false (some [])) false
      (HeadEnv.mk none (some ['a']) 0) (SumEnv.mk none (some ['a']) 0)
      (KeyEnv.mk none) 0 0) rfl rfl rfl).1

/-- C10: when navigation succeeds but the session is still on the login
page (URL contains `nlogin`, or the username field is present, observed
without exception) or the page source contains `captcha`
case-insensitively, `update_profile` returns `False`, calls no edit
method, mutates no field, and its only file-system writes are debug
artifacts. -/
theorem C10_update_profile_guards (hv sv : List PyVariant) (p : ProfEnv)
    (hnav : p.navRaises = false)
    (hguard :
      (p.page.urlRaises = false ∧
        (hasSubChars nloginStr (p.page.currentUrl.getD []) = true ∨
          p.page.usernameFieldPresent = true)) ∨
      captchaDetected p.page = true) :
    (updateProfile hv sv p).1 = false
    ∧ ((updateProfile hv sv p).2 = [Ev.navigateProfile, Ev.dumpDebug loginRequiredLbl] ∨
        (updateProfile hv sv p).2 = [Ev.navigateProfile, Ev.dumpDebug captchaLbl])
    ∧ (∀ f, Ev.taskCall f ∉ (updateProfile hv sv p).2)
    ∧ (∀ f, Ev.setFieldText f ∉ (updateProfile hv sv p).2) := by
  have hcase : isLoginPage p.page = true ∨
      (isLoginPage p.page = false ∧ captchaDetected p.page = true) := by
    rcases hguard with ⟨hurl, hsub | huser⟩ | hcap
    · left; unfold isLoginPage; rw [hurl]; simp [hsub]
    · left
      unfold isLoginPage
      rw [hurl]
      by_cases hsub : hasSubChars nloginStr (p.page.currentUrl.getD []) = true
      · simp [hsub]
      · simp only [Bool.false_eq_true, if_false]
        simp [Bool.not_eq_true] at hsub
        simp [hsub, huser]
    · by_cases hl : isLoginPage p.page = true
      · left; exact hl
      · right
        exact ⟨by simpa [Bool.not_eq_true] using hl, hcap⟩
  rcases hcase with hl | ⟨hl, hc⟩
  · have htr : updateProfile hv sv p =
        (false, [Ev.navigateProfile, Ev.dumpDebug loginRequiredLbl]) := by
      unfold updateProfile
      rw [hnav, hl]
      simp
    rw [htr]
    refine ⟨rfl, Or.inl rfl, ?_, ?_⟩ <;> intro f <;> simp
  · have htr : updateProfile hv sv p =
        (false, [Ev.navigateProfile, Ev.dumpDebug captchaLbl]) := by
      unfold updateProfile
      rw [hnav, hl, hc]
      simp
    rw [htr]
    refine ⟨rfl, Or.inr rfl, ?_, ?_⟩ <;> intro f <;> simp

/-- C10 witness: a session whose URL still contains `nlogin` returns
`False` from `update_profile`. -/
theorem C10_witness :
    (updateProfile [] []
      (ProfEnv.mk false
        (PageState.mk false (some nloginStr) false (some [])) false
        (HeadEnv.mk none (some ['a']) 0) (SumEnv.mk none (some ['a']) 0)
        (KeyEnv.mk none) 0 0)).1 = false :=
  (C10_update_profile_guards [] []
    (ProfEnv.mk false
      (PageState.mk false (some nloginStr) false (some [])) false
      (HeadEnv.mk none (some ['a']) 0) (SumEnv.mk none (some ['a']) 0)
      (KeyEnv.mk none) 0 0) rfl
    (Or.inl ⟨rfl, Or.inl (by decide)⟩)).1

/-! ### Configuration, alerting, driver setup and `main` (lines 401-511) -/

/-- The JSON configuration file.  `none` fields model absent keys (i.e.
`config.get(...)` returning `None`).  `randomize_minutes` is modelled as a
natural number (the non-negative integers valid for `random.randint`). -/
structure Config where
  email : Option Str
  password : Option Str
  browser : Option Str
  fallback_browser : Option Str
  fallback_on_failure : Option Bool
  randomize_minutes : Option Nat
  headline_variants : List PyVariant
  summary_variants : List PyVariant
  alert_from : Option Str
  alert_to : Option Str
  alert_app_password : Option Str
  chrome_profile_dir : Option Str
deriving DecidableEq

/-- Python truthiness of an optional string (`None` and the empty string are falsy). -/
def truthyStr : Option Str → Bool
  | none => false
  | some s => !s.isEmpty

/-- Python `x or d` for an optional string `x`. -/
def strOr (o : Option Str) (d : Str) : Str :=
  match o with
  | some s => if s.isEmpty then d else s
  | none => d

def chromeName : Str := "chrome".toList
def firefoxName : Str := "firefox".toList

/-- Result of a call that may raise: the `raised` flag plus the trace
events the call emitted before returning or raising. -/
structure ExcRes where
  raised : Bool
  evs : List Ev
deriving DecidableEq

/-- Are `alert_from`, `alert_to` and `alert_app_password` all configured?
(`send_alert` receives `config or {}`, so a missing config file means
nothing is configured.) -/
def alertConfigured (c : Option Config) : Bool :=
  match c with
  | none => false
  | some cfg =>
    truthyStr cfg.alert_from && truthyStr cfg.alert_to && truthyStr cfg.alert_app_password

/-- `send_alert(status, message, config)` (lines 408-424): logs a warning
and returns when the alert credentials are not all configured, otherwise
sends over SMTP; `smtpRaises` is the oracle for an SMTP failure, which
propagates (the function has no handler). -/
def sendAlert (c : Option Config) (st : AlertStatus) (smtpRaises : Bool) : ExcRes :=
  if alertConfigured c = false then ExcRes.mk false [Ev.alertCall st, Ev.logWarn]
  else if smtpRaises then ExcRes.mk true [Ev.alertCall st]
  else ExcRes.mk false [Ev.alertCall st, Ev.smtpSend st]

/-- `_setup_chrome(config)` (lines 151-181): creates the configured
`chrome_profile_dir` with `os.makedirs` before launching Chrome; the
launch itself may raise. -/
def setupChrome (c : Option Config) (chromeRaises : Bool) : ExcRes :=
  let pd := c.bind Config.chrome_profile_dir
  ExcRes.mk chromeRaises
    ((if truthyStr pd then [Ev.mkdirProfileDir (pd.getD [])] else []) ++ [Ev.chromeAttempt])

/-- `_setup_firefox(config)` (lines 131-149). -/
def setupFirefox (firefoxRaises : Bool) : ExcRes :=
  ExcRes.mk firefoxRaises [Ev.firefoxAttempt]

/-- The browser name of `setup_driver`: the override, the config value or
`chrome`, whichever is truthy first, lowercased. -/
def setupBrowserName (c : Option Config) (override : Option Str) : Str :=
  lowerStr (strOr override (strOr (c.bind Config.browser) chromeName))

/-- The fallback browser name of `setup_driver`: the config value or
`firefox`, lowercased. -/
def setupFallbackName (c : Option Config) : Str :=
  lowerStr (strOr (c.bind Config.fallback_browser) firefoxName)

/-- `setup_driver(browser_override, allow_fallback)` (lines 183-202):
Firefox directly when selected; otherwise Chrome, falling back to Firefox
on a Chrome failure exactly when fallback is allowed and the configured
fallback browser is `firefox`, and re-raising otherwise. -/
def setupDriver (c : Option Config) (override : Option Str) (allowFallback : Bool)
    (chromeRaises firefoxRaises : Bool) : ExcRes :=
  if setupBrowserName c override = firefoxName then setupFirefox firefoxRaises
  else
    let sc := setupChrome c chromeRaises
    if sc.raised = false then sc
    else if allowFallback = true ∧ setupFallbackName c = firefoxName then
      let sf := setupFirefox firefoxRaises
      ExcRes.mk sf.raised (sc.evs ++ sf.evs)
    else ExcRes.mk true sc.evs

/-- `close()` (lines 395-399): quits the driver when one is set; the quit
may raise. -/
def closeDriver (driverSet raises : Bool) : ExcRes :=
  if driverSet then ExcRes.mk raises [Ev.closeBrowser] else ExcRes.mk false []

/-- Oracle data for one `main()` run: the configuration source, and the
outcome of every external call `main` performs. -/
structure MainEnv where
  config : Option Config
  envEmail : Option Str
  envPassword : Option Str
  randDelay : Nat
  chromeRaises : Bool
  firefoxRaises : Bool
  loginOk : Bool
  prof : ProfEnv
  closeRaises1 : Bool
  firefoxRaises2 : Bool
  loginOk2 : Bool
  prof2 : ProfEnv
  smtpRaises : Bool
  smtpRaisesErr : Bool
  closeRaisesF : Bool
deriving DecidableEq

def mainEmail (env : MainEnv) : Option Str :=
  match env.config with
  | some c => c.email
  | none => env.envEmail

def mainPassword (env : MainEnv) : Option Str :=
  match env.config with
  | some c => c.password
  | none => env.envPassword

/-- `not EMAIL or not PASSWORD` fails exactly when this is `false`. -/
def credsOk (env : MainEnv) : Bool :=
  truthyStr (mainEmail env) && truthyStr (mainPassword env)

/-- The `randomize_minutes` config value, defaulting to 15 (also when the
config file is absent). -/
def effMinutes (env : MainEnv) : Nat :=
  match env.config with
  | some c => c.randomize_minutes.getD 15
  | none => 15

/-- `random.randint(0, RANDOMIZE_MINUTES * 60)` driven by the oracle. -/
def startupDelay (env : MainEnv) : Nat :=
  env.randDelay % (60 * effMinutes env + 1)

def mainHeadlineVariants (env : MainEnv) : List PyVariant :=
  match env.config with
  | some c => c.headline_variants
  | none => []

def mainSummaryVariants (env : MainEnv) : List PyVariant :=
  match env.config with
  | some c => c.summary_variants
  | none => []

/-- The browser name `main` computes: the config value or `chrome`,
lowercased; plain `chrome` without a config file. -/
def mainBrowser (env : MainEnv) : Str :=
  match env.config with
  | some c => lowerStr (strOr c.browser chromeName)
  | none => chromeName

/-- The fallback browser name `main` computes: the config value or
`firefox`, lowercased; plain `firefox` without a config file. -/
def mainFallbackBrowser (env : MainEnv) : Str :=
  match env.config with
  | some c => lowerStr (strOr c.fallback_browser firefoxName)
  | none => firefoxName

/-- The `fallback_on_failure` config value, defaulting to `True` (also
when the config file is absent). -/
def mainFallbackOn (env : MainEnv) : Bool :=
  match env.config with
  | some c => c.fallback_on_failure.getD true
  | none => true

/-- The outcome of a `main()` run: whether an exception propagated out of
`main`, whether the top-level handler caught one, the final value of the
`updated` variable, whether the Firefox-fallback branch ran, and the
trace. -/
structure MainOut where
  raised : Bool
  caught : Bool
  updatedFinal : Bool
  fallbackRan : Bool
  trace : List Ev
deriving DecidableEq

/-- The `finally: updater.close()` clause: an exception raised by the quit
propagates (joining, and standing in for, any in-flight exception). -/
def mainFinally (env : MainEnv) (driverSet raised caught updated fb : Bool)
    (evs : List Ev) : MainOut :=
  let cl := closeDriver driverSet env.closeRaisesF
  MainOut.mk (raised || cl.raised) caught updated fb (evs ++ cl.evs)

/-- The `except Exception` handler of `main`: logs, sends the `Error`
alert (whose own SMTP failure propagates), then runs the finally clause. -/
def mainExcept (env : MainEnv) (driverSet updated fb : Bool) (evs : List Ev) : MainOut :=
  let a := sendAlert env.config AlertStatus.error env.smtpRaisesErr
  mainFinally env driverSet a.raised true updated fb (evs ++ [Ev.logError] ++ a.evs)

/-- End of the `try` block: send the `Success`/`Failed` alert; if that
raises, control passes to the handler. -/
def mainAlertFinish (env : MainEnv) (driverSet updated fb : Bool) (evs : List Ev) : MainOut :=
  let a := sendAlert env.config
    (if updated then AlertStatus.success else AlertStatus.failed) env.smtpRaises
  if a.raised then mainExcept env driverSet updated fb (evs ++ a.evs)
  else mainFinally env driverSet false false updated fb (evs ++ a.evs)

/-- One login-then-update round (`login()` and `update_profile(...)` both
catch their own exceptions and return booleans). -/
def mainRound (env : MainEnv) (loginOk : Bool) (p : ProfEnv) : Bool × List Ev :=
  if loginOk then
    let u := updateProfile (mainHeadlineVariants env) (mainSummaryVariants env) p
    (u.1, Ev.loginAttempt :: u.2)
  else (false, [Ev.loginAttempt])

/-- The `try/except/finally` body of `main` (lines 468-508), entered after
the startup delay. -/
def mainBody (env : MainEnv) : MainOut :=
  let s1 := setupDriver env.config none true env.chromeRaises env.firefoxRaises
  if s1.raised then mainExcept env false false false s1.evs
  else
    let r1 := mainRound env env.loginOk env.prof
    let evs1 := s1.evs ++ r1.2
    if r1.1 then mainAlertFinish env true true false evs1
    else if mainBrowser env = chromeName ∧ mainFallbackOn env = true ∧
        mainFallbackBrowser env = firefoxName then
      let cl := closeDriver true env.closeRaises1
      let evs2 := evs1 ++ cl.evs
      if cl.raised then mainExcept env true false true evs2
      else
        let s2 := setupDriver env.config (some firefoxName) false
          env.chromeRaises env.firefoxRaises2
        let evs3 := evs2 ++ s2.evs
        if s2.raised then mainExcept env true false true evs3
        else
          let r2 := mainRound env env.loginOk2 env.prof2
          mainAlertFinish env true r2.1 true (evs3 ++ r2.2)
    else mainAlertFinish env true false false evs1

/-- `main()` (lines 426-508): credential check, startup delay, then the
`try/except/finally` body. -/
def mainRun (env : MainEnv) : MainOut :=
  if credsOk env = false then MainOut.mk false false false false [Ev.logError]
  else
    let b := mainBody env
    MainOut.mk b.raised b.caught b.updatedFinal b.fallbackRan
      (Ev.sleepDelay (startupDelay env) :: b.trace)

/-! ### C1: exception containment in `main` -/

theorem closeDriver_not_raised (d : Bool) : (closeDriver d false).raised = false := by
  cases d <;> rfl

theorem sendAlert_raised (c : Option Config) (st : AlertStatus) (r : Bool) :
    (sendAlert c st r).raised = (alertConfigured c && r) := by
  unfold sendAlert
  cases h : alertConfigured c
  · simp [h]
  · cases r <;> simp [h]

theorem mainFinally_raised (env : MainEnv) (d r c u f : Bool) (evs : List Ev)
    (hcl : env.closeRaisesF = false) :
    (mainFinally env d r c u f evs).raised = r := by
  simp only [mainFinally]
  rw [hcl, closeDriver_not_raised]
  simp

theorem mainExcept_raised (env : MainEnv) (d u f : Bool) (evs : List Ev)
    (hsm : env.smtpRaisesErr = false) (hcl : env.closeRaisesF = false) :
    (mainExcept env d u f evs).raised = false := by
  simp only [mainExcept]
  rw [mainFinally_raised env d _ true u f _ hcl, sendAlert_raised, hsm]
  simp

theorem mainAlertFinish_raised (env : MainEnv) (d u f : Bool) (evs : List Ev)
    (hsm : env.smtpRaisesErr = false) (hcl : env.closeRaisesF = false) :
    (mainAlertFinish env d u f evs).raised = false := by
  simp only [mainAlertFinish]
  cases ha : (sendAlert env.config
      (if u = true then AlertStatus.success else AlertStatus.failed) env.smtpRaises).raised
  · simp only [ha, Bool.false_eq_true, if_false]
    exact mainFinally_raised env d false false u f _ hcl
  · simp only [ha, if_true]
    exact mainExcept_raised env d u f _ hsm hcl

theorem mainBody_raised (env : MainEnv) (hsm : env.smtpRaisesErr = false)
    (hcl : env.closeRaisesF = false) : (mainBody env).raised = false := by
  simp only [mainBody]
  split
  · exact mainExcept_raised env false false false _ hsm hcl
  · split
    · exact mainAlertFinish_raised env true true false _ hsm hcl
    · split
      · split
        · exact mainExcept_raised env true false true _ hsm hcl
        · split
          · exact mainExcept_raised env true false true _ hsm hcl
          · exact mainAlertFinish_raised env true _ true _ hsm hcl
      · exact mainAlertFinish_raised env true false false _ hsm hcl

/-- C1 (corrected): failures of driver setup, login, profile update, the
browser close inside the fallback branch, and the first status email are
all caught; and a run without credentials logs an error and returns with
no browser work.  But an exception is only guaranteed not to propagate out
of `main` when additionally the error-path status email and the final
browser close do not themselves raise (see `C1_counterexample`). -/
theorem C1_main_soft_failures (env : MainEnv) :
    (credsOk env = true → env.smtpRaisesErr = false → env.closeRaisesF = false →
      (mainRun env).raised = false)
    ∧ (credsOk env = false →
        mainRun env = MainOut.mk false false false false [Ev.logError]) := by
  constructor
  · intro hc hsm hcl
    simp only [mainRun, hc]
    simp only [Bool.true_eq_false, if_false]
    exact mainBody_raised env hsm hcl
  · intro hc
    simp only [mainRun, hc, if_true]

/-- A config with credentials, Firefox selected, and alert credentials. -/
def cexConfigC1 : Config :=
  Config.mk (some ['e']) (some ['p']) (some firefoxName) none none none [] []
    (some ['f']) (some ['t']) (some ['w']) none

/-- A benign profile-update environment in which every edit succeeds. -/
def benignProf : ProfEnv :=
  ProfEnv.mk false (PageState.mk false (some ['x']) false (some [])) false
    (HeadEnv.mk none (some ['a']) 0) (SumEnv.mk none (some ['a']) 0) (KeyEnv.mk none) 0 0

/-- Credentials present, Firefox driver init raises, and the SMTP send of
the error alert raises. -/
def cexEnvC1 : MainEnv :=
  MainEnv.mk (some cexConfigC1) none none 0 false true true benignProf
    false false false benignProf false true false

/-- C1 counterexample: with email and password configured, a driver-setup
failure followed by an SMTP failure while sending the error-status alert
makes an exception propagate out of `main`. -/
theorem C1_counterexample : (mainRun cexEnvC1).raised = true := by decide

/-- A config holding only credentials. -/
def cfgBasic : Config :=
  Config.mk (some ['e']) (some ['p']) none none none none [] [] none none none none

/-- A fully benign run environment. -/
def wEnvC1 : MainEnv :=
  MainEnv.mk (some cfgBasic) none none 0 false false true benignProf
    false false false benignProf false false false

/-- C1 witness: a benign credentialed run raises nothing. -/
theorem C1_witness : (mainRun wEnvC1).raised = false :=
  (C1_main_soft_failures wEnvC1).1 rfl rfl rfl

/-! ### C8: the startup delay -/

/-- C8: with credentials present the startup delay is the first trace
event (hence precedes all browser work), it lies in the inclusive range
`0 .. 60 * randomize_minutes` (default 15), and every value of that range
is attainable by some oracle value. -/
theorem C8_startup_delay (env : MainEnv) (hc : credsOk env = true) :
    (∃ rest, (mainRun env).trace = Ev.sleepDelay (startupDelay env) :: rest)
    ∧ startupDelay env ≤ 60 * effMinutes env
    ∧ (∀ k, k ≤ 60 * effMinutes env →
        ∃ env2, effMinutes env2 = effMinutes env ∧ startupDelay env2 = k) := by
  refine ⟨?_, ?_, ?_⟩
  · refine ⟨(mainBody env).trace, ?_⟩
    simp only [mainRun, hc]
    simp only [Bool.true_eq_false, if_false]
  · unfold startupDelay
    have := Nat.mod_lt env.randDelay (show 0 < 60 * effMinutes env + 1 by omega)
    omega
  · intro k hk
    refine ⟨MainEnv.mk env.config env.envEmail env.envPassword k env.chromeRaises
      env.firefoxRaises env.loginOk env.prof env.closeRaises1 env.firefoxRaises2
      env.loginOk2 env.prof2 env.smtpRaises env.smtpRaisesErr env.closeRaisesF,
      rfl, ?_⟩
    show k % (60 * effMinutes env + 1) = k
    exact Nat.mod_eq_of_lt (by omega)

/-- C8 witness: in the benign credentialed run the delay is within range. -/
theorem C8_witness : startupDelay wEnvC1 ≤ 60 * effMinutes wEnvC1 :=
  (C8_startup_delay wEnvC1 rfl).2.1

/-! ### Event classification and C6: status alerts -/

/-- The event constructors an `update_profile` call can emit. -/
def isProfileEv : Ev → Bool
  | Ev.navigateProfile => true
  | Ev.sleepDelay _ => true
  | Ev.dumpDebug _ => true
  | Ev.taskCall _ => true
  | Ev.setFieldText _ => true
  | Ev.clickSave _ => true
  | _ => false

theorem runHeadline_evs (hv : List PyVariant) (e : HeadEnv) :
    ∀ x ∈ (runHeadline hv e).2, isProfileEv x = true := by
  unfold runHeadline
  cases e.failAt with
  | none =>
    cases headlineNewText e.currentText hv e.randIdx <;>
      simp [List.forall_mem_cons, isProfileEv]
  | some st =>
    cases st with
    | findEditBtn => simp [List.forall_mem_cons, isProfileEv]
    | findTextArea => simp [List.forall_mem_cons, isProfileEv]
    | findSaveBtn =>
      cases headlineNewText e.currentText hv e.randIdx <;>
        simp [List.forall_mem_cons, isProfileEv]

theorem runSummary_evs (sv : List PyVariant) (e : SumEnv) :
    ∀ x ∈ (runSummary sv e).2, isProfileEv x = true := by
  unfold runSummary
  cases hE : sv.isEmpty
  · simp only [Bool.false_eq_true, if_false]
    cases e.failAt with
    | none =>
      cases pickVariant e.currentText sv e.randIdx <;>
        simp [List.forall_mem_cons, isProfileEv]
    | some st =>
      cases st with
      | findEditBtn => simp [List.forall_mem_cons, isProfileEv]
      | findTextArea => simp [List.forall_mem_cons, isProfileEv]
      | findSaveBtn =>
        cases pickVariant e.currentText sv e.randIdx <;>
          simp [List.forall_mem_cons, isProfileEv]
  · simp only [if_true]
    simp [List.forall_mem_cons, isProfileEv]

theorem runKeySkills_evs (e : KeyEnv) :
    ∀ x ∈ (runKeySkills e).2, isProfileEv x = true := by
  unfold runKeySkills
  cases e.failAt <;> simp [List.forall_mem_cons, isProfileEv]

theorem forall_profile_append {a b : List Ev}
    (ha : ∀ x ∈ a, isProfileEv x = true) (hb : ∀ x ∈ b, isProfileEv x = true) :
    ∀ x ∈ a ++ b, isProfileEv x = true := by
  intro x hx
  rcases List.mem_append.mp hx with h | h
  · exact ha x h
  · exact hb x h

theorem forall_profile_cons {a : Ev} {l : List Ev} (ha : isProfileEv a = true)
    (hl : ∀ x ∈ l, isProfileEv x = true) : ∀ x ∈ a :: l, isProfileEv x = true := by
  intro x hx
  rcases List.mem_cons.mp hx with rfl | h
  · exact ha
  · exact hl x h

theorem forall_profile_nil : ∀ x ∈ ([] : List Ev), isProfileEv x = true := by
  intro x hx
  simp at hx

theorem forall_profile_combined (t1 t2 t3 : Bool × List Ev) (g1 g2 : Nat)
    (h1 : ∀ x ∈ t1.2, isProfileEv x = true)
    (h2 : ∀ x ∈ t2.2, isProfileEv x = true)
    (h3 : ∀ x ∈ t3.2, isProfileEv x = true) :
    ∀ x ∈ (if t1.1 = true then (true, Ev.navigateProfile :: t1.2)
        else if t2.1 = true then
          (true, Ev.navigateProfile :: (t1.2 ++ [Ev.sleepDelay g1] ++ t2.2))
        else
          (t3.1, Ev.navigateProfile ::
            (t1.2 ++ [Ev.sleepDelay g1] ++ t2.2 ++ [Ev.sleepDelay g2] ++ t3.2))).2,
      isProfileEv x = true := by
  split
  · exact forall_profile_cons (by rfl) h1
  · split
    · exact forall_profile_cons (by rfl)
        (forall_profile_append
          (forall_profile_append h1 (forall_profile_cons (by rfl) forall_profile_nil)) h2)
    · exact forall_profile_cons (by rfl)
        (forall_profile_append
          (forall_profile_append
            (forall_profile_append
              (forall_profile_append h1 (forall_profile_cons (by rfl) forall_profile_nil))
              h2)
            (forall_profile_cons (by rfl) forall_profile_nil)) h3)

theorem updateProfile_evs (hv sv : List PyVariant) (p : ProfEnv) :
    ∀ x ∈ (updateProfile hv sv p).2, isProfileEv x = true := by
  have hh := runHeadline_evs hv p.head
  have hs := runSummary_evs sv p.summ
  have hk := runKeySkills_evs p.keys
  have ht1 : ∀ x ∈ (if p.shuffleSwap = true then runSummary sv p.summ
      else runHeadline hv p.head).2, isProfileEv x = true := by
    by_cases hsw : p.shuffleSwap = true
    · rw [if_pos hsw]; exact hs
    · rw [if_neg hsw]; exact hh
  have ht2 : ∀ x ∈ (if p.shuffleSwap = true then runHeadline hv p.head
      else runSummary sv p.summ).2, isProfileEv x = true := by
    by_cases hsw : p.shuffleSwap = true
    · rw [if_pos hsw]; exact hh
    · rw [if_neg hsw]; exact hs
  simp only [updateProfile]
  split
  · exact forall_profile_nil
  · split
    · exact forall_profile_cons (by rfl) (forall_profile_cons (by rfl) forall_profile_nil)
    · split
      · exact forall_profile_cons (by rfl) (forall_profile_cons (by rfl) forall_profile_nil)
      · exact forall_profile_combined
          (if p.shuffleSwap = true then runSummary sv p.summ else runHeadline hv p.head)
          (if p.shuffleSwap = true then runHeadline hv p.head else runSummary sv p.summ)
          (runKeySkills p.keys) (profileGap p.gap1) (profileGap p.gap2) ht1 ht2 hk

/-- The `send_alert` calls a trace records, in order. -/
def alertCallsOf (tr : List Ev) : List AlertStatus :=
  tr.filterMap fun e =>
    match e with
    | Ev.alertCall st => some st
    | _ => none

theorem alertCallsOf_append (a b : List Ev) :
    alertCallsOf (a ++ b) = alertCallsOf a ++ alertCallsOf b :=
  List.filterMap_append _ _ _

theorem alertCallsOf_of_profile (tr : List Ev)
    (h : ∀ x ∈ tr, isProfileEv x = true) : alertCallsOf tr = [] := by
  apply List.filterMap_eq_nil.mpr
  intro e he
  have hp := h e he
  cases e <;> first
    | rfl
    | simp [isProfileEv] at hp

theorem alertCallsOf_updateProfile (hv sv : List PyVariant) (p : ProfEnv) :
    alertCallsOf (updateProfile hv sv p).2 = [] :=
  alertCallsOf_of_profile _ (updateProfile_evs hv sv p)

theorem alertCallsOf_mainRound (env : MainEnv) (ok : Bool) (p : ProfEnv) :
    alertCallsOf (mainRound env ok p).2 = [] := by
  unfold mainRound
  cases ok
  · rfl
  · simp only [if_true]
    show alertCallsOf (Ev.loginAttempt ::
      (updateProfile (mainHeadlineVariants env) (mainSummaryVariants env) p).2) = []
    show alertCallsOf
      (updateProfile (mainHeadlineVariants env) (mainSummaryVariants env) p).2 = []
    exact alertCallsOf_updateProfile _ _ _

theorem alertCallsOf_setupDriver (c : Option Config) (ov : Option Str) (af cr fr : Bool) :
    alertCallsOf (setupDriver c ov af cr fr).evs = [] := by
  unfold setupDriver setupChrome setupFirefox
  by_cases hb : setupBrowserName c ov = firefoxName
  · rw [if_pos hb]
    rfl
  · rw [if_neg hb]
    by_cases haf : (af = true ∧ setupFallbackName c = firefoxName) <;>
      cases htr : truthyStr (c.bind Config.chrome_profile_dir) <;>
      cases cr <;>
      simp [haf, htr, alertCallsOf] <;>
      try rfl

theorem alertCallsOf_closeDriver (d r : Bool) :
    alertCallsOf (closeDriver d r).evs = [] := by
  cases d <;> rfl

theorem alertCallsOf_sendAlert (c : Option Config) (st : AlertStatus) (r : Bool) :
    alertCallsOf (sendAlert c st r).evs = [st] := by
  unfold sendAlert
  cases h : alertConfigured c <;> cases r <;> simp [h] <;> rfl

/-- The status `main` reports: `Error` when the handler caught an
exception, otherwise `Success`/`Failed` by the final `updated` value. -/
def statusOf (o : MainOut) : AlertStatus :=
  if o.caught then AlertStatus.error
  else if o.updatedFinal then AlertStatus.success else AlertStatus.failed

theorem alertCallsOf_logError : alertCallsOf [Ev.logError] = [] := rfl

theorem alertCallsOf_logError_cons (l : List Ev) :
    alertCallsOf (Ev.logError :: l) = alertCallsOf l := rfl

theorem mainExcept_alertSpec (env : MainEnv) (d u f : Bool) (evs : List Ev)
    (h : alertCallsOf evs = []) :
    alertCallsOf (mainExcept env d u f evs).trace =
      [statusOf (mainExcept env d u f evs)] := by
  simp only [mainExcept, mainFinally, statusOf]
  simp [alertCallsOf_append, h, alertCallsOf_logError, alertCallsOf_logError_cons,
    alertCallsOf_closeDriver, alertCallsOf_sendAlert]

theorem mainAlertFinish_alertSpec (env : MainEnv) (d u f : Bool) (evs : List Ev)
    (hsm : env.smtpRaises = false) (h : alertCallsOf evs = []) :
    alertCallsOf (mainAlertFinish env d u f evs).trace =
      [statusOf (mainAlertFinish env d u f evs)] := by
  simp only [mainAlertFinish]
  have hr : (sendAlert env.config
      (if u = true then AlertStatus.success else AlertStatus.failed) env.smtpRaises).raised
      = false := by
    rw [sendAlert_raised, hsm]
    simp
  simp only [hr, Bool.false_eq_true, if_false]
  simp only [mainFinally, statusOf]
  cases u <;>
    simp [alertCallsOf_append, h, alertCallsOf_logError, alertCallsOf_closeDriver,
      alertCallsOf_sendAlert]

theorem mainBody_alertSpec (env : MainEnv) (hsm : env.smtpRaises = false) :
    alertCallsOf (mainBody env).trace = [statusOf (mainBody env)] := by
  simp only [mainBody]
  split
  · exact mainExcept_alertSpec env false false false _ (alertCallsOf_setupDriver _ _ _ _ _)
  · split
    · refine mainAlertFinish_alertSpec env true true false _ hsm ?_
      simp [alertCallsOf_append, alertCallsOf_setupDriver, alertCallsOf_mainRound]
    · split
      · split
        · refine mainExcept_alertSpec env true false true _ ?_
          simp [alertCallsOf_append, alertCallsOf_setupDriver, alertCallsOf_mainRound,
            alertCallsOf_closeDriver]
        · split
          · refine mainExcept_alertSpec env true false true _ ?_
            simp [alertCallsOf_append, alertCallsOf_setupDriver, alertCallsOf_mainRound,
              alertCallsOf_closeDriver]
          · refine mainAlertFinish_alertSpec env true _ true _ hsm ?_
            simp [alertCallsOf_append, alertCallsOf_setupDriver, alertCallsOf_mainRound,
              alertCallsOf_closeDriver]
      · refine mainAlertFinish_alertSpec env true false false _ hsm ?_
        simp [alertCallsOf_append, alertCallsOf_setupDriver, alertCallsOf_mainRound]

/-- C6 (corrected): in a credentialed run whose first status email does not
itself raise, `main` attempts exactly one status email, with status
`Error` when an exception was caught and `Success`/`Failed` by the update
outcome otherwise; `send_alert` performs an SMTP send exactly when all
three alert settings are configured and the send does not raise, and with
unconfigured settings it logs a warning and returns without sending.  (When
the first email raises, a second `Error` email is attempted: see
`C6_counterexample`.) -/
theorem C6_alert_behaviour (env : MainEnv) :
    (credsOk env = true → env.smtpRaises = false →
      alertCallsOf (mainRun env).trace = [statusOf (mainRun env)])
    ∧ (∀ c st r, Ev.smtpSend st ∈ (sendAlert c st r).evs ↔
        (alertConfigured c = true ∧ r = false))
    ∧ (∀ c st r, alertConfigured c = false →
        sendAlert c st r = ExcRes.mk false [Ev.alertCall st, Ev.logWarn]) := by
  refine ⟨?_, ?_, ?_⟩
  · intro hc hsm
    simp only [mainRun, hc]
    simp only [Bool.true_eq_false, if_false]
    show alertCallsOf (mainBody env).trace = _
    rw [mainBody_alertSpec env hsm]
    rfl
  · intro c st r
    unfold sendAlert
    cases h : alertConfigured c <;> cases r <;> simp [h]
  · intro c st r h
    unfold sendAlert
    rw [h]
    simp

/-- Credentials, Firefox selected, alert credentials configured, and an
SMTP failure on the first (success-status) alert. -/
def cexEnvC6 : MainEnv :=
  MainEnv.mk (some cexConfigC1) none none 0 false false true benignProf
    false false false benignProf true false false

/-- C6 counterexample: when the success-status email raises, `main`
attempts a second, error-status email --- two attempts in one run. -/
theorem C6_counterexample :
    alertCallsOf (mainRun cexEnvC6).trace =
      [AlertStatus.success, AlertStatus.error] := by decide

/-- C6 witness: the benign credentialed run attempts exactly its one
status email. -/
theorem C6_witness :
    alertCallsOf (mainRun wEnvC1).trace = [statusOf (mainRun wEnvC1)] :=
  (C6_alert_behaviour wEnvC1).1 rfl rfl

/-! ### C4: the Firefox fallback -/

theorem mainFinally_fb (env : MainEnv) (d r c u f : Bool) (evs : List Ev) :
    (mainFinally env d r c u f evs).fallbackRan = f := rfl

theorem mainExcept_fb (env : MainEnv) (d u f : Bool) (evs : List Ev) :
    (mainExcept env d u f evs).fallbackRan = f := rfl

theorem mainAlertFinish_fb (env : MainEnv) (d u f : Bool) (evs : List Ev) :
    (mainAlertFinish env d u f evs).fallbackRan = f := by
  simp only [mainAlertFinish]
  split <;> split <;>
    first
      | exact mainExcept_fb env d u f _
      | exact mainFinally_fb env d false false u f _

theorem mainAlertFinish_trace_extends (env : MainEnv) (d u f : Bool) (evs : List Ev) :
    ∃ suf, (mainAlertFinish env d u f evs).trace = evs ++ suf := by
  simp only [mainAlertFinish, mainExcept, mainFinally]
  split <;> split <;>
    (simp only [List.append_assoc, List.singleton_append]; exact ⟨_, rfl⟩)

theorem setupBrowserName_override_firefox (c : Option Config) :
    setupBrowserName c (some firefoxName) = firefoxName := rfl

theorem setupDriver_override_firefox (c : Option Config) (af cr fr : Bool) :
    setupDriver c (some firefoxName) af cr fr = setupFirefox fr := by
  unfold setupDriver
  rw [if_pos (setupBrowserName_override_firefox c)]

theorem mainBody_fallback_eq (env : MainEnv)
    (hs1 : (setupDriver env.config none true env.chromeRaises env.firefoxRaises).raised
      = false)
    (hr1 : (mainRound env env.loginOk env.prof).1 = false)
    (hbr : mainBrowser env = chromeName) (hfo : mainFallbackOn env = true)
    (hfb : mainFallbackBrowser env = firefoxName)
    (hcl1 : env.closeRaises1 = false) (hff2 : env.firefoxRaises2 = false) :
    mainBody env = mainAlertFinish env true
      (mainRound env env.loginOk2 env.prof2).1 true
      ((((setupDriver env.config none true env.chromeRaises env.firefoxRaises).evs ++
          (mainRound env env.loginOk env.prof).2) ++ [Ev.closeBrowser]) ++
        [Ev.firefoxAttempt] ++ (mainRound env env.loginOk2 env.prof2).2) := by
  simp only [mainBody]
  rw [hs1, hr1]
  simp only [Bool.false_eq_true, if_false]
  rw [if_pos ⟨hbr, hfo, hfb⟩, hcl1]
  simp only [closeDriver, if_true]
  simp only [Bool.false_eq_true, if_false]
  rw [setupDriver_override_firefox, hff2]
  simp only [setupFirefox, Bool.false_eq_true, if_false]

/-- C4: under a Chrome configuration with fallback enabled to Firefox, a
first session that yields no update leads `main` to close the browser,
attempt Firefox, log in again and re-run the profile update; under any
other browser/fallback configuration (or a successful first round) the
fallback branch does not run.  `setup_driver` itself goes straight to
Firefox when Firefox is selected, succeeds on Chrome without touching
Firefox when Chrome initialisation does not raise, falls back to Firefox
exactly when Chrome raises with fallback allowed and fallback browser
`firefox`, and otherwise re-raises without a Firefox attempt. -/
theorem C4_firefox_fallback (env : MainEnv) :
    (credsOk env = true →
      (setupDriver env.config none true env.chromeRaises env.firefoxRaises).raised
        = false →
      (mainRound env env.loginOk env.prof).1 = false →
      mainBrowser env = chromeName → mainFallbackOn env = true →
      mainFallbackBrowser env = firefoxName →
      env.closeRaises1 = false → env.firefoxRaises2 = false →
      (mainRun env).fallbackRan = true ∧
      ∃ pre post,
        (mainRun env).trace =
          pre ++ [Ev.closeBrowser, Ev.firefoxAttempt, Ev.loginAttempt] ++ post ∧
        (env.loginOk2 = true →
          ∃ post2, post = (updateProfile (mainHeadlineVariants env)
            (mainSummaryVariants env) env.prof2).2 ++ post2))
    ∧ (¬(mainBrowser env = chromeName ∧ mainFallbackOn env = true ∧
          mainFallbackBrowser env = firefoxName) →
        (mainRun env).fallbackRan = false)
    ∧ ((mainRound env env.loginOk env.prof).1 = true →
        (mainRun env).fallbackRan = false)
    ∧ (∀ c ov af cr fr,
        (setupBrowserName c ov = firefoxName →
          setupDriver c ov af cr fr = setupFirefox fr)
        ∧ (setupBrowserName c ov ≠ firefoxName → cr = false →
            (setupDriver c ov af cr fr).raised = false ∧
            Ev.firefoxAttempt ∉ (setupDriver c ov af cr fr).evs)
        ∧ (setupBrowserName c ov ≠ firefoxName → cr = true →
            af = true → setupFallbackName c = firefoxName →
            (setupDriver c ov af cr fr).raised = fr ∧
            Ev.firefoxAttempt ∈ (setupDriver c ov af cr fr).evs)
        ∧ (setupBrowserName c ov ≠ firefoxName → cr = true →
            ¬(af = true ∧ setupFallbackName c = firefoxName) →
            (setupDriver c ov af cr fr).raised = true ∧
            Ev.firefoxAttempt ∉ (setupDriver c ov af cr fr).evs)) := by
  refine ⟨?_, ?_, ?_, ?_⟩
  · intro hc hs1 hr1 hbr hfo hfb hcl1 hff2
    have hbody := mainBody_fallback_eq env hs1 hr1 hbr hfo hfb hcl1 hff2
    have htr : (mainRun env).trace = Ev.sleepDelay (startupDelay env) ::
        (mainBody env).trace := by
      simp only [mainRun, hc]
      simp only [Bool.true_eq_false, if_false]
    have hfbran : (mainRun env).fallbackRan = (mainBody env).fallbackRan := by
      simp only [mainRun, hc]
      simp only [Bool.true_eq_false, if_false]
    refine ⟨by rw [hfbran, hbody, mainAlertFinish_fb], ?_⟩
    obtain ⟨suf, hsuf⟩ := mainAlertFinish_trace_extends env true
      (mainRound env env.loginOk2 env.prof2).1 true
      ((((setupDriver env.config none true env.chromeRaises env.firefoxRaises).evs ++
          (mainRound env env.loginOk env.prof).2) ++ [Ev.closeBrowser]) ++
        [Ev.firefoxAttempt] ++ (mainRound env env.loginOk2 env.prof2).2)
    by_cases hlo2 : env.loginOk2 = true
    · refine ⟨Ev.sleepDelay (startupDelay env) ::
        ((setupDriver env.config none true env.chromeRaises env.firefoxRaises).evs ++
          (mainRound env env.loginOk env.prof).2),
        (updateProfile (mainHeadlineVariants env) (mainSummaryVariants env)
          env.prof2).2 ++ suf, ?_, ?_⟩
      · rw [htr, hbody, hsuf]
        have hr2 : (mainRound env env.loginOk2 env.prof2).2 = Ev.loginAttempt ::
            (updateProfile (mainHeadlineVariants env) (mainSummaryVariants env)
              env.prof2).2 := by
          unfold mainRound
          rw [if_pos hlo2]
        rw [hr2]
        simp [List.append_assoc]
      · intro _
        exact ⟨suf, rfl⟩
    · refine ⟨Ev.sleepDelay (startupDelay env) ::
        ((setupDriver env.config none true env.chromeRaises env.firefoxRaises).evs ++
          (mainRound env env.loginOk env.prof).2), suf, ?_, ?_⟩
      · rw [htr, hbody, hsuf]
        have hr2 : (mainRound env env.loginOk2 env.prof2).2 = [Ev.loginAttempt] := by
          unfold mainRound
          rw [if_neg hlo2]
        rw [hr2]
        simp [List.append_assoc]
      · intro hcontra
        exact absurd hcontra hlo2
  · intro hne
    cases hc : credsOk env
    · simp only [mainRun, hc, if_true]
    · have hfbran : (mainRun env).fallbackRan = (mainBody env).fallbackRan := by
        simp only [mainRun, hc]
        simp only [Bool.true_eq_false, if_false]
      rw [hfbran]
      simp only [mainBody]
      split
      · exact mainExcept_fb env false false false _
      · split
        · exact mainAlertFinish_fb env true true false _
        · exact mainAlertFinish_fb env true false false _
  · intro hr1
    cases hc : credsOk env
    · simp only [mainRun, hc, if_true]
    · have hfbran : (mainRun env).fallbackRan = (mainBody env).fallbackRan := by
        simp only [mainRun, hc]
        simp only [Bool.true_eq_false, if_false]
      rw [hfbran]
      simp only [mainBody]
      split
      · exact mainExcept_fb env false false false _
      · exact mainAlertFinish_fb env true true false _
  · intro c ov af cr fr
    refine ⟨?_, ?_, ?_, ?_⟩
    · intro hb
      unfold setupDriver
      rw [if_pos hb]
    · intro hb hcr
      subst hcr
      unfold setupDriver setupChrome setupFirefox
      rw [if_neg hb]
      cases htr : truthyStr (c.bind Config.chrome_profile_dir) <;> simp [htr]
    · intro hb hcr haf hfbn
      subst hcr
      unfold setupDriver setupChrome setupFirefox
      rw [if_neg hb]
      simp only [Bool.true_eq_false, if_false]
      rw [if_pos ⟨haf, hfbn⟩]
      cases htr : truthyStr (c.bind Config.chrome_profile_dir) <;> simp [htr]
    · intro hb hcr hnaf
      subst hcr
      unfold setupDriver setupChrome setupFirefox
      rw [if_neg hb]
      simp only [Bool.true_eq_false, if_false]
      rw [if_neg hnaf]
      cases htr : truthyStr (c.bind Config.chrome_profile_dir) <;> simp [htr]

/-- A profile-update environment whose navigation raises, so the update
fails. -/
def failProf : ProfEnv :=
  ProfEnv.mk true (PageState.mk false (some ['x']) false (some [])) false
    (HeadEnv.mk none (some ['a']) 0) (SumEnv.mk none (some ['a']) 0) (KeyEnv.mk none) 0 0

/-- Chrome defaults, first update fails, fallback succeeds. -/
def wEnvC4 : MainEnv :=
  MainEnv.mk (some cfgBasic) none none 0 false false true failProf
    false false true benignProf false false false

/-- C4 witness: under default Chrome configuration with a failing first
round, the fallback branch runs. -/
theorem C4_witness : (mainRun wEnvC4).fallbackRan = true :=
  ((C4_firefox_fallback wEnvC4).1 (by decide) (by decide) (by decide) (by decide)
    (by decide) (by decide) (by decide) (by decide)).1

/-! ### C9: file-system effects -/

/-- Events that create or append to something on disk: log appends,
debug-artifact writes, and the `os.makedirs` of the Chrome profile
directory. -/
def isFsWrite : Ev → Bool
  | Ev.logError => true
  | Ev.logWarn => true
  | Ev.dumpDebug _ => true
  | Ev.mkdirProfileDir _ => true
  | _ => false

/-- The on-disk artifacts the spec names: log-file appends and debug
screenshot/HTML dumps (with their directory). -/
def isDebugOrLog : Ev → Bool
  | Ev.logError => true
  | Ev.logWarn => true
  | Ev.dumpDebug _ => true
  | _ => false

/-- The file-system effect of an event is accounted for: it is a log append or
debug dump, or it creates exactly the configured Chrome profile
directory. -/
def allowedWrite (c : Option Config) (e : Ev) : Prop :=
  isFsWrite e = true →
    (isDebugOrLog e = true ∨
      ∃ d, e = Ev.mkdirProfileDir d ∧ c.bind Config.chrome_profile_dir = some d)

theorem allowedWrite_of_not_write {c : Option Config} {e : Ev}
    (h : isFsWrite e = false) : allowedWrite c e := by
  intro hw
  rw [h] at hw
  exact absurd hw (by simp)

theorem allowedWrite_of_debugOrLog {c : Option Config} {e : Ev}
    (h : isDebugOrLog e = true) : allowedWrite c e := fun _ => Or.inl h

theorem allowedWrite_of_profile {c : Option Config} {e : Ev}
    (h : isProfileEv e = true) : allowedWrite c e := by
  cases e <;> first
    | exact allowedWrite_of_not_write rfl
    | exact allowedWrite_of_debugOrLog rfl
    | simp [isProfileEv] at h

theorem forall_allowed_append {c : Option Config} {a b : List Ev}
    (ha : ∀ x ∈ a, allowedWrite c x) (hb : ∀ x ∈ b, allowedWrite c x) :
    ∀ x ∈ a ++ b, allowedWrite c x := by
  intro x hx
  rcases List.mem_append.mp hx with h | h
  · exact ha x h
  · exact hb x h

theorem forall_allowed_cons {c : Option Config} {a : Ev} {l : List Ev}
    (ha : allowedWrite c a) (hl : ∀ x ∈ l, allowedWrite c x) :
    ∀ x ∈ a :: l, allowedWrite c x := by
  intro x hx
  rcases List.mem_cons.mp hx with rfl | h
  · exact ha
  · exact hl x h

theorem forall_allowed_nil {c : Option Config} :
    ∀ x ∈ ([] : List Ev), allowedWrite c x := by
  intro x hx
  simp at hx

theorem allowed_updateProfile (c : Option Config) (hv sv : List PyVariant) (p : ProfEnv) :
    ∀ x ∈ (updateProfile hv sv p).2, allowedWrite c x :=
  fun x hx => allowedWrite_of_profile (updateProfile_evs hv sv p x hx)

theorem allowed_mainRound (c : Option Config) (env : MainEnv) (ok : Bool) (p : ProfEnv) :
    ∀ x ∈ (mainRound env ok p).2, allowedWrite c x := by
  unfold mainRound
  cases ok
  · exact forall_allowed_cons (allowedWrite_of_not_write rfl) forall_allowed_nil
  · exact forall_allowed_cons (allowedWrite_of_not_write rfl)
      (allowed_updateProfile c _ _ _)

theorem allowed_sendAlert (c c2 : Option Config) (st : AlertStatus) (r : Bool) :
    ∀ x ∈ (sendAlert c2 st r).evs, allowedWrite c x := by
  unfold sendAlert
  split
  · exact forall_allowed_cons (allowedWrite_of_not_write rfl)
      (forall_allowed_cons (allowedWrite_of_debugOrLog rfl) forall_allowed_nil)
  · split
    · exact forall_allowed_cons (allowedWrite_of_not_write rfl) forall_allowed_nil
    · exact forall_allowed_cons (allowedWrite_of_not_write rfl)
        (forall_allowed_cons (allowedWrite_of_not_write rfl) forall_allowed_nil)

theorem allowed_closeDriver (c : Option Config) (d r : Bool) :
    ∀ x ∈ (closeDriver d r).evs, allowedWrite c x := by
  unfold closeDriver
  cases d
  · exact forall_allowed_nil
  · exact forall_allowed_cons (allowedWrite_of_not_write rfl) forall_allowed_nil

theorem allowed_mkdir (c : Option Config)
    (h : truthyStr (c.bind Config.chrome_profile_dir) = true) :
    allowedWrite c (Ev.mkdirProfileDir ((c.bind Config.chrome_profile_dir).getD [])) := by
  intro _
  right
  cases hp : c.bind Config.chrome_profile_dir with
  | none => rw [hp] at h; simp [truthyStr] at h
  | some d => exact ⟨d, rfl, rfl⟩

theorem allowed_setupDriver (c : Option Config) (ov : Option Str) (af cr fr : Bool) :
    ∀ x ∈ (setupDriver c ov af cr fr).evs, allowedWrite c x := by
  have hff : ∀ x ∈ [Ev.firefoxAttempt], allowedWrite c x :=
    forall_allowed_cons (allowedWrite_of_not_write rfl) forall_allowed_nil
  have hch : ∀ x ∈ (if truthyStr (c.bind Config.chrome_profile_dir) = true then
      [Ev.mkdirProfileDir ((c.bind Config.chrome_profile_dir).getD [])] else []) ++
      [Ev.chromeAttempt], allowedWrite c x := by
    apply forall_allowed_append
    · split
      · exact forall_allowed_cons (allowed_mkdir c (by assumption)) forall_allowed_nil
      · exact forall_allowed_nil
    · exact forall_allowed_cons (allowedWrite_of_not_write rfl) forall_allowed_nil
  unfold setupDriver setupChrome setupFirefox
  split
  · exact hff
  · cases cr
    · exact hch
    · split
      · exact forall_allowed_append hch hff
      · exact hch

theorem allowed_mainFinally (env : MainEnv) (d r c u f : Bool) (evs : List Ev)
    (h : ∀ x ∈ evs, allowedWrite env.config x) :
    ∀ x ∈ (mainFinally env d r c u f evs).trace, allowedWrite env.config x := by
  simp only [mainFinally]
  exact forall_allowed_append h (allowed_closeDriver env.config d env.closeRaisesF)

theorem allowed_mainExcept (env : MainEnv) (d u f : Bool) (evs : List Ev)
    (h : ∀ x ∈ evs, allowedWrite env.config x) :
    ∀ x ∈ (mainExcept env d u f evs).trace, allowedWrite env.config x := by
  simp only [mainExcept]
  exact allowed_mainFinally env d _ true u f _
    (forall_allowed_append (forall_allowed_append h
      (forall_allowed_cons (allowedWrite_of_debugOrLog rfl) forall_allowed_nil))
      (allowed_sendAlert env.config env.config AlertStatus.error env.smtpRaisesErr))

theorem allowed_mainAlertFinish (env : MainEnv) (d u f : Bool) (evs : List Ev)
    (h : ∀ x ∈ evs, allowedWrite env.config x) :
    ∀ x ∈ (mainAlertFinish env d u f evs).trace, allowedWrite env.config x := by
  simp only [mainAlertFinish]
  split <;> split <;>
    first
      | exact allowed_mainExcept env d u f _
          (forall_allowed_append h
            (allowed_sendAlert env.config env.config _ env.smtpRaises))
      | exact allowed_mainFinally env d false false u f _
          (forall_allowed_append h
            (allowed_sendAlert env.config env.config _ env.smtpRaises))

theorem allowed_mainBody (env : MainEnv) :
    ∀ x ∈ (mainBody env).trace, allowedWrite env.config x := by
  simp only [mainBody]
  split
  · exact allowed_mainExcept env false false false _ (allowed_setupDriver _ _ _ _ _)
  · split
    · exact allowed_mainAlertFinish env true true false _
        (forall_allowed_append (allowed_setupDriver _ _ _ _ _)
          (allowed_mainRound _ env _ _))
    · split
      · split
        · exact allowed_mainExcept env true false true _
            (forall_allowed_append (forall_allowed_append (allowed_setupDriver _ _ _ _ _)
              (allowed_mainRound _ env _ _)) (allowed_closeDriver _ _ _))
        · split
          · exact allowed_mainExcept env true false true _
              (forall_allowed_append (forall_allowed_append (forall_allowed_append
                (allowed_setupDriver _ _ _ _ _) (allowed_mainRound _ env _ _))
                (allowed_closeDriver _ _ _)) (allowed_setupDriver _ _ _ _ _))
          · exact allowed_mainAlertFinish env true _ true _
              (forall_allowed_append (forall_allowed_append (forall_allowed_append
                (forall_allowed_append (allowed_setupDriver _ _ _ _ _)
                  (allowed_mainRound _ env _ _)) (allowed_closeDriver _ _ _))
                (allowed_setupDriver _ _ _ _ _)) (allowed_mainRound _ env _ _))
      · exact allowed_mainAlertFinish env true false false _
          (forall_allowed_append (allowed_setupDriver _ _ _ _ _)
            (allowed_mainRound _ env _ _))

/-- C9 (corrected): every file-system write a run performs is a log-file
append or a debug artifact --- except the creation of the Chrome user-data
directory by `_setup_chrome`, which happens exactly for the configured
`chrome_profile_dir` and persists past process exit (see
`C9_counterexample`). -/
theorem C9_fs_effects (env : MainEnv) :
    ∀ e ∈ (mainRun env).trace, isFsWrite e = true →
      (isDebugOrLog e = true ∨
        ∃ d, e = Ev.mkdirProfileDir d ∧
          env.config.bind Config.chrome_profile_dir = some d) := by
  intro e he
  by_cases hc : credsOk env = false
  · replace he : e ∈ [Ev.logError] := by
      rw [mainRun, if_pos hc] at he
      exact he
    rcases List.mem_cons.mp he with rfl | hm
    · exact allowedWrite_of_debugOrLog rfl
    · simp at hm
  · replace he : e ∈ Ev.sleepDelay (startupDelay env) :: (mainBody env).trace := by
      rw [mainRun, if_neg hc] at he
      exact he
    rcases List.mem_cons.mp he with rfl | hm
    · exact allowedWrite_of_not_write rfl
    · exact allowed_mainBody env e hm

/-- Credentials plus a configured Chrome profile directory. -/
def cexConfigC9 : Config :=
  Config.mk (some ['e']) (some ['p']) none none none none [] [] none none none
    (some ['p', 'd'])

def cexEnvC9 : MainEnv :=
  MainEnv.mk (some cexConfigC9) none none 0 false false true benignProf
    false false false benignProf false false false

/-- C9 counterexample: with `chrome_profile_dir` configured, the run
creates the profile directory on disk --- a persistent artifact that is
neither a log append nor a debug dump. -/
theorem C9_counterexample :
    Ev.mkdirProfileDir ['p', 'd'] ∈ (mainRun cexEnvC9).trace ∧
      isFsWrite (Ev.mkdirProfileDir ['p', 'd']) = true ∧
      isDebugOrLog (Ev.mkdirProfileDir ['p', 'd']) = false := by decide

/-- C9 witness: the alert warning logged in the benign run is an allowed
write. -/
theorem C9_witness :
    isDebugOrLog Ev.logWarn = true ∨
      ∃ d, Ev.logWarn = Ev.mkdirProfileDir d ∧
        wEnvC1.config.bind Config.chrome_profile_dir = some d :=
  C9_fs_effects wEnvC1 Ev.logWarn (by decide) (by decide)

end Naukri
